import Mathlib

/-!
ECU-Engine-Control: torque control stack

A shallow embedding of the torque control software component
(`SWC/Torque_Control.c`), the access facade (`RTE/Rte_TorqueControl.c`) and
the sensor / actuator abstractions (`BSW/ECU_Abstraction/IoHwAb/*.c`).

Modelling conventions

* A C `float` is a rational number (`ℚ`).  The arithmetic of the control law
  and of the unit conversions is carried out without rounding.  The duty
  cycle of the motor driver, which is cut to an integer, is computed in single
  precision: the quotient and the product are each rounded to the nearest
  binary32 value, ties to even (`f32_round`).  A division by zero, a rounding
  that overflows and a conversion to `uint16_t` of a value that does not fit
  have no value (`none`).
* A `float*` argument is an `Option ℚ`: `none` is the NULL pointer,
  `some v` a present slot that currently holds `v`.  A function taking such
  a pointer returns the content of the slot after the call.
* A configuration pointer is an `Option` of the configuration structure.
* The file-static configurations of the five abstractions are the fields of
  `Bsw`.  The calls made into the MCAL peripherals are recorded, oldest
  first, in `Bsw.mcal`.  Console output of the BSW layer is not recorded.
* The software component is written against the facade declared in
  `Rte_TorqueControl.h`; it is embedded over an arbitrary implementation of
  that interface (`Rte_TorqueControl σ`).  Its facade calls and its console
  reports are recorded in the order in which they happen.
-/

namespace ECU

/-! ## Std_Types.h -/

abbrev Std_ReturnType := Nat

/-- Operation successful (`0x00U`). -/
abbrev E_OK : Std_ReturnType := 0

/-- Operation not successful (`0x01U`). -/
abbrev E_NOT_OK : Std_ReturnType := 1

/-! ## MCAL -/

/-- Calls into the peripheral drivers (ADC, DIO, PWM), with their arguments. -/
inductive McalCall where
  | Adc_Init (Adc_Channel : Nat)
  | Adc_ReadChannel (channel : Nat)
  | Dio_Init
  | Pwm_Init (Pwm_Channel Pwm_Period Pwm_DutyCycle : Nat)
  | Pwm_SetDutyCycle (Channel : Nat) (DutyCycle : Option Nat)
  deriving DecidableEq, Repr

structure ThrottleSensor_ConfigType where
  ThrottleSensor_Channel : Nat
  deriving DecidableEq, Repr

structure SpeedSensor_ConfigType where
  SpeedSensor_Channel : Nat
  SpeedSensor_MaxValue : Nat
  deriving DecidableEq, Repr

structure LoadSensor_ConfigType where
  LoadSensor_Channel : Nat
  LoadSensor_MaxValue : Nat
  deriving DecidableEq, Repr

structure TorqueSensor_ConfigType where
  TorqueSensor_Channel : Nat
  TorqueSensor_MaxValue : Nat
  deriving DecidableEq, Repr

structure MotorDriver_ConfigType where
  Motor_Channel : Nat
  Motor_MaxTorque : Nat
  deriving DecidableEq, Repr

/-- The file-static state of the basic software: one stored configuration per
abstraction, and the record of the peripheral calls made so far. -/
structure Bsw where
  ThrottleSensor_CurrentConfig : ThrottleSensor_ConfigType
  SpeedSensor_CurrentConfig : SpeedSensor_ConfigType
  LoadSensor_CurrentConfig : LoadSensor_ConfigType
  TorqueSensor_CurrentConfig : TorqueSensor_ConfigType
  MotorDriver_CurrentConfig : MotorDriver_ConfigType
  mcal : List McalCall
  deriving DecidableEq, Repr

/-- The state at program start: C zero-initialises the static configurations. -/
def Bsw.startup : Bsw :=
  { ThrottleSensor_CurrentConfig := ⟨0⟩
    SpeedSensor_CurrentConfig := ⟨0, 0⟩
    LoadSensor_CurrentConfig := ⟨0, 0⟩
    TorqueSensor_CurrentConfig := ⟨0, 0⟩
    MotorDriver_CurrentConfig := ⟨0, 0⟩
    mcal := [] }

/-- Record one peripheral call. -/
def Bsw.record (s : Bsw) (c : McalCall) : Bsw :=
  { s with mcal := s.mcal ++ [c] }

/-- The analog input: the outcome of the `n`-th sample (counted from 0) when it
is taken on `channel`; `none` is a failed conversion, `some raw` a sample. -/
abbrev Adc_Samples := Nat → Nat → Option Nat

/-- Number of analog samples taken so far. -/
def Bsw.adcReads (s : Bsw) : Nat :=
  s.mcal.countP (fun c => match c with
    | McalCall.Adc_ReadChannel _ => true
    | _ => false)

/-- `Adc_Init(&adcConfig)` as called by the abstractions: only the channel of
the local configuration is set by the callers. -/
def Adc_Init (Adc_Channel : Nat) (s : Bsw) : Bsw :=
  s.record (McalCall.Adc_Init Adc_Channel)

/-- `Dio_Init()`. -/
def Dio_Init (s : Bsw) : Bsw :=
  s.record McalCall.Dio_Init

/-- Modelled from the spec: the status-returning analog read
`Adc_ReadChannel(channel, &value)` that the sensor abstractions call; `Adc.h`
under src declares only a one-argument read that returns the sample.  The
spec gives a `u16` sample per channel that may fail.  The result is `none`
when the status is not `E_OK`, else the sample stored in the `uint16_t`. -/
def Adc_ReadChannel (adc : Adc_Samples) (channel : Nat) (s : Bsw) : Option Nat × Bsw :=
  ((adc s.adcReads channel).map (fun raw => raw % 65536),
    s.record (McalCall.Adc_ReadChannel channel))

/-- `Pwm_Init(&pwmConfig)`. -/
def Pwm_Init (Pwm_Channel Pwm_Period Pwm_DutyCycle : Nat) (s : Bsw) : Bsw :=
  s.record (McalCall.Pwm_Init Pwm_Channel Pwm_Period Pwm_DutyCycle)

/-- `Pwm_SetDutyCycle(Channel, DutyCycle)`. -/
def Pwm_SetDutyCycle (Channel : Nat) (DutyCycle : Option Nat) (s : Bsw) : Bsw :=
  s.record (McalCall.Pwm_SetDutyCycle Channel DutyCycle)

/-! ## Arithmetic of the C expressions -/

/-- Division `a / b` of two floats; without a value when `b` is zero. -/
def float_div (a b : ℚ) : Option ℚ :=
  if b = 0 then none else some (a / b)

/-- The integer obtained from a float by discarding its fraction (truncation
toward zero). -/
def float_trunc (x : ℚ) : Int :=
  if 0 ≤ x then ⌊x⌋ else ⌈x⌉

/-- The cast `(uint16_t)x` of a float: the fraction is discarded; without a
value when the result does not fit 16 bits. -/
def float_to_uint16 (x : ℚ) : Option Nat :=
  let t : Int := float_trunc x
  if 0 ≤ t ∧ t < 65536 then some t.toNat else none

/-- The nearest integer, a tie going to the even one. -/
def round_half_even (q : ℚ) : Int :=
  if q - ⌊q⌋ < 1 / 2 then ⌊q⌋
  else if 1 / 2 < q - ⌊q⌋ then ⌊q⌋ + 1
  else if ⌊q⌋ % 2 = 0 then ⌊q⌋ else ⌊q⌋ + 1

/-- The binary exponent that single precision (binary32) uses for `x`: that of
the binade of `x`, and -126 for zero and for the subnormal range. -/
def f32_exponent (x : ℚ) : Int :=
  if x = 0 then -126 else max (Int.log 2 |x|) (-126)

/-- The unit in the last place of single precision at `x`: 24 significant bits. -/
def f32_ulp (x : ℚ) : ℚ := (2 : ℚ) ^ (f32_exponent x - 23)

/-- The multiple of the unit in the last place nearest to `x`, ties to even. -/
def f32_nearest (x : ℚ) : ℚ := (round_half_even (x / f32_ulp x) : ℚ) * f32_ulp x

/-- The single-precision value of `x` (round to nearest, ties to even); without
a value when the rounded magnitude reaches 2^128 (overflow to infinity). -/
def f32_round (x : ℚ) : Option ℚ :=
  if |f32_nearest x| < (2 : ℚ) ^ (128 : ℕ) then some (f32_nearest x) else none

/-- Single-precision division `a / b`. -/
def f32_div (a b : ℚ) : Option ℚ := (float_div a b).bind f32_round

/-- Single-precision product `a * b`. -/
def f32_mul (a b : ℚ) : Option ℚ := f32_round (a * b)

/-! ## IoHwAb_ThrottleSensor.c -/

abbrev THROTTLE_SENSOR_MIN_RAW_VALUE : Int := 0
abbrev THROTTLE_SENSOR_MAX_RAW_VALUE : Int := 1023
abbrev THROTTLE_POSITION_MIN : ℚ := 0
abbrev THROTTLE_POSITION_MAX : ℚ := 1

def IoHwAb_ThrottleSensor_Init (ConfigPtr : Option ThrottleSensor_ConfigType) (s : Bsw) :
    Std_ReturnType × Bsw :=
  match ConfigPtr with
  | none => (E_NOT_OK, s)
  | some cfg =>
    let s := { s with ThrottleSensor_CurrentConfig :=
      { s.ThrottleSensor_CurrentConfig with ThrottleSensor_Channel := cfg.ThrottleSensor_Channel } }
    let s := Adc_Init s.ThrottleSensor_CurrentConfig.ThrottleSensor_Channel s
    let s := Dio_Init s
    (E_OK, s)

/-- The conversion and clamp of a raw throttle sample. -/
def ThrottleSensor_convert (raw_adc_value : Nat) : ℚ :=
  let pos : ℚ := (((raw_adc_value : Int) - THROTTLE_SENSOR_MIN_RAW_VALUE : Int) : ℚ) /
    ((THROTTLE_SENSOR_MAX_RAW_VALUE - THROTTLE_SENSOR_MIN_RAW_VALUE : Int) : ℚ)
  if pos < THROTTLE_POSITION_MIN then THROTTLE_POSITION_MIN
  else if pos > THROTTLE_POSITION_MAX then THROTTLE_POSITION_MAX
  else pos

def IoHwAb_ThrottleSensor_Read (adc : Adc_Samples) (ThrottlePosition : Option ℚ) (s : Bsw) :
    Std_ReturnType × Option ℚ × Bsw :=
  match ThrottlePosition with
  | none => (E_NOT_OK, none, s)
  | some old =>
    match Adc_ReadChannel adc s.ThrottleSensor_CurrentConfig.ThrottleSensor_Channel s with
    | (none, s1) => (E_NOT_OK, some old, s1)
    | (some raw_adc_value, s1) => (E_OK, some (ThrottleSensor_convert raw_adc_value), s1)

/-! ## IoHwAb_SpeedSensor.c -/

def IoHwAb_SpeedSensor_Init (ConfigPtr : Option SpeedSensor_ConfigType) (s : Bsw) :
    Std_ReturnType × Bsw :=
  match ConfigPtr with
  | none => (E_NOT_OK, s)
  | some cfg =>
    let s := { s with SpeedSensor_CurrentConfig :=
      { SpeedSensor_Channel := cfg.SpeedSensor_Channel
        SpeedSensor_MaxValue := cfg.SpeedSensor_MaxValue } }
    let s := Adc_Init cfg.SpeedSensor_Channel s
    (E_OK, s)

def IoHwAb_SpeedSensor_Read (adc : Adc_Samples) (SpeedValue : Option ℚ) (s : Bsw) :
    Std_ReturnType × Option ℚ × Bsw :=
  match SpeedValue with
  | none => (E_NOT_OK, none, s)
  | some old =>
    match Adc_ReadChannel adc s.SpeedSensor_CurrentConfig.SpeedSensor_Channel s with
    | (none, s1) => (E_NOT_OK, some old, s1)
    | (some adcValue, s1) =>
      (E_OK, some (((adcValue : ℚ) / 1023) * (s1.SpeedSensor_CurrentConfig.SpeedSensor_MaxValue : ℚ)), s1)

/-! ## IoHwAb_LoadSensor.c -/

def IoHwAb_LoadSensor_Init (ConfigPtr : Option LoadSensor_ConfigType) (s : Bsw) :
    Std_ReturnType × Bsw :=
  match ConfigPtr with
  | none => (E_NOT_OK, s)
  | some cfg =>
    let s := { s with LoadSensor_CurrentConfig :=
      { LoadSensor_Channel := cfg.LoadSensor_Channel
        LoadSensor_MaxValue := cfg.LoadSensor_MaxValue } }
    let s := Adc_Init cfg.LoadSensor_Channel s
    (E_OK, s)

def IoHwAb_LoadSensor_Read (adc : Adc_Samples) (LoadValue : Option ℚ) (s : Bsw) :
    Std_ReturnType × Option ℚ × Bsw :=
  match LoadValue with
  | none => (E_NOT_OK, none, s)
  | some old =>
    match Adc_ReadChannel adc s.LoadSensor_CurrentConfig.LoadSensor_Channel s with
    | (none, s1) => (E_NOT_OK, some old, s1)
    | (some adcValue, s1) =>
      (E_OK, some (((adcValue : ℚ) / 1023) * (s1.LoadSensor_CurrentConfig.LoadSensor_MaxValue : ℚ)), s1)

/-! ## IoHwAb_TorqueSensor.c -/

def IoHwAb_TorqueSensor_Init (ConfigPtr : Option TorqueSensor_ConfigType) (s : Bsw) :
    Std_ReturnType × Bsw :=
  match ConfigPtr with
  | none => (E_NOT_OK, s)
  | some cfg =>
    let s := { s with TorqueSensor_CurrentConfig :=
      { TorqueSensor_Channel := cfg.TorqueSensor_Channel
        TorqueSensor_MaxValue := cfg.TorqueSensor_MaxValue } }
    let s := Adc_Init s.TorqueSensor_CurrentConfig.TorqueSensor_Channel s
    (E_OK, s)

def IoHwAb_TorqueSensor_Read (adc : Adc_Samples) (TorqueValue : Option ℚ) (s : Bsw) :
    Std_ReturnType × Option ℚ × Bsw :=
  match TorqueValue with
  | none => (E_NOT_OK, none, s)
  | some old =>
    match Adc_ReadChannel adc s.TorqueSensor_CurrentConfig.TorqueSensor_Channel s with
    | (none, s1) => (E_NOT_OK, some old, s1)
    | (some adcValue, s1) =>
      (E_OK, some (((adcValue : ℚ) / 1023) * (s1.TorqueSensor_CurrentConfig.TorqueSensor_MaxValue : ℚ)), s1)

/-! ## IoHwAb_MotorDriver.c -/

def IoHwAb_MotorDriver_Init (ConfigPtr : Option MotorDriver_ConfigType) (s : Bsw) :
    Std_ReturnType × Bsw :=
  match ConfigPtr with
  | none => (E_NOT_OK, s)
  | some cfg =>
    let s := { s with MotorDriver_CurrentConfig :=
      { Motor_Channel := cfg.Motor_Channel
        Motor_MaxTorque := cfg.Motor_MaxTorque } }
    let s := Pwm_Init s.MotorDriver_CurrentConfig.Motor_Channel 1000 0 s
    (E_OK, s)

/-- The expression `(uint16_t)((TorqueValue / Motor_MaxTorque) * 100)`: the
maximum is converted to `float`, the quotient and the product are computed in
single precision, and the cast discards the fraction. -/
def MotorDriver_dutyCycle (TorqueValue : ℚ) (Motor_MaxTorque : Nat) : Option Nat :=
  ((f32_div TorqueValue (Motor_MaxTorque : ℚ)).bind (fun ratio => f32_mul ratio 100)).bind
    float_to_uint16

/-- The single-precision value of `(TorqueValue / Motor_MaxTorque) * 100` when
neither rounding overflows: the value that the cast of line 93 receives. -/
def MotorDriver_dutyFloat (TorqueValue : ℚ) (Motor_MaxTorque : Nat) : ℚ :=
  f32_nearest (f32_nearest (TorqueValue / (Motor_MaxTorque : ℚ)) * 100)

def IoHwAb_MotorDriver_SetTorque (TorqueValue : ℚ) (s : Bsw) : Std_ReturnType × Bsw :=
  if TorqueValue < 0 ∨ TorqueValue > (s.MotorDriver_CurrentConfig.Motor_MaxTorque : ℚ) then
    (E_NOT_OK, s)
  else
    let dutyCycle := MotorDriver_dutyCycle TorqueValue s.MotorDriver_CurrentConfig.Motor_MaxTorque
    (E_OK, Pwm_SetDutyCycle s.MotorDriver_CurrentConfig.Motor_Channel dutyCycle s)

/-! ## Rte_TorqueControl.c -/

def Rte_Read_RpThrottleSensor_ThrottlePosition (adc : Adc_Samples) (ThrottlePosition : Option ℚ)
    (s : Bsw) : Std_ReturnType × Option ℚ × Bsw :=
  match ThrottlePosition with
  | none => (E_NOT_OK, none, s)
  | some v => IoHwAb_ThrottleSensor_Read adc (some v) s

def Rte_Read_RpSpeedSensor_Speed (adc : Adc_Samples) (Speed : Option ℚ) (s : Bsw) :
    Std_ReturnType × Option ℚ × Bsw :=
  match Speed with
  | none => (E_NOT_OK, none, s)
  | some v => IoHwAb_SpeedSensor_Read adc (some v) s

def Rte_Read_RpLoadSensor_LoadWeight (adc : Adc_Samples) (LoadWeight : Option ℚ) (s : Bsw) :
    Std_ReturnType × Option ℚ × Bsw :=
  match LoadWeight with
  | none => (E_NOT_OK, none, s)
  | some v => IoHwAb_LoadSensor_Read adc (some v) s

def Rte_Read_RpTorqueSensor_ActualTorque (adc : Adc_Samples) (ActualTorque : Option ℚ) (s : Bsw) :
    Std_ReturnType × Option ℚ × Bsw :=
  match ActualTorque with
  | none => (E_NOT_OK, none, s)
  | some v => IoHwAb_TorqueSensor_Read adc (some v) s

def Rte_Write_PpMotorDriver_SetTorque (TorqueValue : ℚ) (s : Bsw) : Std_ReturnType × Bsw :=
  IoHwAb_MotorDriver_SetTorque TorqueValue s

def Rte_Call_RpThrottleSensor_Init (s : Bsw) : Std_ReturnType × Bsw :=
  let throttleSensorConfig : ThrottleSensor_ConfigType := { ThrottleSensor_Channel := 0 }
  IoHwAb_ThrottleSensor_Init (some throttleSensorConfig) s

def Rte_Call_RpSpeedSensor_Init (s : Bsw) : Std_ReturnType × Bsw :=
  let speedSensorConfig : SpeedSensor_ConfigType :=
    { SpeedSensor_Channel := 1, SpeedSensor_MaxValue := 200 }
  IoHwAb_SpeedSensor_Init (some speedSensorConfig) s

def Rte_Call_RpLoadSensor_Init (s : Bsw) : Std_ReturnType × Bsw :=
  let loadSensorConfig : LoadSensor_ConfigType :=
    { LoadSensor_Channel := 2, LoadSensor_MaxValue := 1000 }
  IoHwAb_LoadSensor_Init (some loadSensorConfig) s

def Rte_Call_RpTorqueSensor_Init (s : Bsw) : Std_ReturnType × Bsw :=
  let torqueSensorConfig : TorqueSensor_ConfigType :=
    { TorqueSensor_Channel := 3, TorqueSensor_MaxValue := 500 }
  IoHwAb_TorqueSensor_Init (some torqueSensorConfig) s

def Rte_Call_PpMotorDriver_Init (s : Bsw) : Std_ReturnType × Bsw :=
  let motorDriverConfig : MotorDriver_ConfigType :=
    { Motor_Channel := 1, Motor_MaxTorque := 300 }
  IoHwAb_MotorDriver_Init (some motorDriverConfig) s

/-! ## Rte_TorqueControl.h -/

/-- The facade declared in `Rte_TorqueControl.h`, over a state `σ` of whatever
implements it: five reads and writes and five init calls. -/
structure Rte_TorqueControl (σ : Type) where
  Rte_Read_RpThrottleSensor_ThrottlePosition : Option ℚ → σ → Std_ReturnType × Option ℚ × σ
  Rte_Read_RpSpeedSensor_Speed : Option ℚ → σ → Std_ReturnType × Option ℚ × σ
  Rte_Read_RpLoadSensor_LoadWeight : Option ℚ → σ → Std_ReturnType × Option ℚ × σ
  Rte_Read_RpTorqueSensor_ActualTorque : Option ℚ → σ → Std_ReturnType × Option ℚ × σ
  Rte_Write_PpMotorDriver_SetTorque : ℚ → σ → Std_ReturnType × σ
  Rte_Call_RpThrottleSensor_Init : σ → Std_ReturnType × σ
  Rte_Call_RpSpeedSensor_Init : σ → Std_ReturnType × σ
  Rte_Call_RpLoadSensor_Init : σ → Std_ReturnType × σ
  Rte_Call_RpTorqueSensor_Init : σ → Std_ReturnType × σ
  Rte_Call_PpMotorDriver_Init : σ → Std_ReturnType × σ

/-- The facade of the repository: `Rte_TorqueControl.c` on top of the IoHwAb
abstractions, for a given analog input. -/
def Rte_IoHwAb (adc : Adc_Samples) : Rte_TorqueControl Bsw :=
  { Rte_Read_RpThrottleSensor_ThrottlePosition := ECU.Rte_Read_RpThrottleSensor_ThrottlePosition adc
    Rte_Read_RpSpeedSensor_Speed := ECU.Rte_Read_RpSpeedSensor_Speed adc
    Rte_Read_RpLoadSensor_LoadWeight := ECU.Rte_Read_RpLoadSensor_LoadWeight adc
    Rte_Read_RpTorqueSensor_ActualTorque := ECU.Rte_Read_RpTorqueSensor_ActualTorque adc
    Rte_Write_PpMotorDriver_SetTorque := ECU.Rte_Write_PpMotorDriver_SetTorque
    Rte_Call_RpThrottleSensor_Init := ECU.Rte_Call_RpThrottleSensor_Init
    Rte_Call_RpSpeedSensor_Init := ECU.Rte_Call_RpSpeedSensor_Init
    Rte_Call_RpLoadSensor_Init := ECU.Rte_Call_RpLoadSensor_Init
    Rte_Call_RpTorqueSensor_Init := ECU.Rte_Call_RpTorqueSensor_Init
    Rte_Call_PpMotorDriver_Init := ECU.Rte_Call_PpMotorDriver_Init }

/-- A facade without state whose ten operations have fixed outcomes: each read
returns the given status and, when the slot is present, stores the given value
in it; the write and the inits return the given status. -/
def Rte_fixed (throttle speed load actual : Std_ReturnType × ℚ) (write : Std_ReturnType)
    (inits : Fin 5 → Std_ReturnType) : Rte_TorqueControl Unit :=
  { Rte_Read_RpThrottleSensor_ThrottlePosition := fun p _ => (throttle.1, p.map (fun _ => throttle.2), ())
    Rte_Read_RpSpeedSensor_Speed := fun p _ => (speed.1, p.map (fun _ => speed.2), ())
    Rte_Read_RpLoadSensor_LoadWeight := fun p _ => (load.1, p.map (fun _ => load.2), ())
    Rte_Read_RpTorqueSensor_ActualTorque := fun p _ => (actual.1, p.map (fun _ => actual.2), ())
    Rte_Write_PpMotorDriver_SetTorque := fun _ _ => (write, ())
    Rte_Call_RpThrottleSensor_Init := fun _ => (inits 0, ())
    Rte_Call_RpSpeedSensor_Init := fun _ => (inits 1, ())
    Rte_Call_RpLoadSensor_Init := fun _ => (inits 2, ())
    Rte_Call_RpTorqueSensor_Init := fun _ => (inits 3, ())
    Rte_Call_PpMotorDriver_Init := fun _ => (inits 4, ()) }

/-! ## Torque_Control.h / Torque_Control.c -/

abbrev MAX_TORQUE : ℚ := 100
abbrev MIN_TORQUE : ℚ := 0

/-- The facade operations the component calls, with their value argument. -/
inductive RteOp where
  | Call_RpThrottleSensor_Init
  | Call_RpSpeedSensor_Init
  | Call_RpLoadSensor_Init
  | Call_RpTorqueSensor_Init
  | Call_PpMotorDriver_Init
  | Read_RpThrottleSensor_ThrottlePosition
  | Read_RpSpeedSensor_Speed
  | Read_RpLoadSensor_LoadWeight
  | Read_RpTorqueSensor_ActualTorque
  | Write_PpMotorDriver_SetTorque (TorqueValue : ℚ)
  deriving DecidableEq, Repr

/-- The console reports of `Torque_Control.c`, one constructor per `printf`. -/
inductive Report where
  | init_begin
  | throttle_init_ok
  | throttle_init_error
  | speed_init_ok
  | speed_init_error
  | load_init_ok
  | load_init_error
  | torque_init_ok
  | torque_init_error
  | motor_init_ok
  | motor_init_error
  | system_ready
  | throttle_value (percent : ℚ)
  | throttle_read_error
  | speed_value (kmh : ℚ)
  | speed_read_error
  | load_value (kg : ℚ)
  | load_read_error
  | desired_torque (nm : ℚ)
  | torque_sent
  | torque_send_error
  | actual_torque (nm : ℚ)
  | actual_read_error
  | increase_torque
  | decrease_torque
  deriving DecidableEq, Repr

/-- What the component does, in order: a facade call with the status it
returned, or a console report. -/
inductive SwcEvent where
  | call (op : RteOp) (status : Std_ReturnType)
  | printf (r : Report)
  deriving DecidableEq, Repr

def TorqueControl_Init {σ : Type} (rte : Rte_TorqueControl σ) (s : σ) : List SwcEvent × σ :=
  let t := [SwcEvent.printf Report.init_begin]
  let r := rte.Rte_Call_RpThrottleSensor_Init s
  let t := t ++ [SwcEvent.call RteOp.Call_RpThrottleSensor_Init r.1]
  if r.1 = E_OK then
    let t := t ++ [SwcEvent.printf Report.throttle_init_ok]
    let r := rte.Rte_Call_RpSpeedSensor_Init r.2
    let t := t ++ [SwcEvent.call RteOp.Call_RpSpeedSensor_Init r.1]
    if r.1 = E_OK then
      let t := t ++ [SwcEvent.printf Report.speed_init_ok]
      let r := rte.Rte_Call_RpLoadSensor_Init r.2
      let t := t ++ [SwcEvent.call RteOp.Call_RpLoadSensor_Init r.1]
      if r.1 = E_OK then
        let t := t ++ [SwcEvent.printf Report.load_init_ok]
        let r := rte.Rte_Call_RpTorqueSensor_Init r.2
        let t := t ++ [SwcEvent.call RteOp.Call_RpTorqueSensor_Init r.1]
        if r.1 = E_OK then
          let t := t ++ [SwcEvent.printf Report.torque_init_ok]
          let r := rte.Rte_Call_PpMotorDriver_Init r.2
          let t := t ++ [SwcEvent.call RteOp.Call_PpMotorDriver_Init r.1]
          if r.1 = E_OK then
            let t := t ++ [SwcEvent.printf Report.motor_init_ok]
            (t ++ [SwcEvent.printf Report.system_ready], r.2)
          else
            (t ++ [SwcEvent.printf Report.motor_init_error], r.2)
        else
          (t ++ [SwcEvent.printf Report.torque_init_error], r.2)
      else
        (t ++ [SwcEvent.printf Report.load_init_error], r.2)
    else
      (t ++ [SwcEvent.printf Report.speed_init_error], r.2)
  else
    (t ++ [SwcEvent.printf Report.throttle_init_error], r.2)

/-- Lines 124 to 130 of `TorqueControl_Update`: the desired torque before it is
limited. -/
def TorqueControl_desired (throttle_input current_speed load_weight : ℚ) : ℚ :=
  let desired_torque := throttle_input * MAX_TORQUE
  let desired_torque := if current_speed > 50 then desired_torque * (8 / 10) else desired_torque
  let desired_torque := if load_weight > 500 then desired_torque + 10 else desired_torque
  desired_torque

/-- Lines 133 to 137 of `TorqueControl_Update`: the limit to the safe range. -/
def TorqueControl_limit (desired_torque : ℚ) : ℚ :=
  if desired_torque > MAX_TORQUE then MAX_TORQUE
  else if desired_torque < MIN_TORQUE then MIN_TORQUE
  else desired_torque

/-- The values of the locals of `TorqueControl_Update` at its end, the events of
the cycle and the state of the facade after it. -/
structure UpdateRun (σ : Type) where
  throttle_input : ℚ
  current_speed : ℚ
  load_weight : ℚ
  actual_torque : ℚ
  desired_torque : ℚ
  events : List SwcEvent
  state : σ

def TorqueControl_Update_run {σ : Type} (rte : Rte_TorqueControl σ) (s : σ) : UpdateRun σ :=
  let throttle_input : ℚ := 0
  let current_speed : ℚ := 0
  let load_weight : ℚ := 0
  let actual_torque : ℚ := 0
  let r := rte.Rte_Read_RpThrottleSensor_ThrottlePosition (some throttle_input) s
  let throttle_input := r.2.1.getD throttle_input
  let t := [SwcEvent.call RteOp.Read_RpThrottleSensor_ThrottlePosition r.1,
    SwcEvent.printf (if r.1 = E_OK then Report.throttle_value (throttle_input * 100)
      else Report.throttle_read_error)]
  let r := rte.Rte_Read_RpSpeedSensor_Speed (some current_speed) r.2.2
  let current_speed := r.2.1.getD current_speed
  let t := t ++ [SwcEvent.call RteOp.Read_RpSpeedSensor_Speed r.1,
    SwcEvent.printf (if r.1 = E_OK then Report.speed_value current_speed
      else Report.speed_read_error)]
  let r := rte.Rte_Read_RpLoadSensor_LoadWeight (some load_weight) r.2.2
  let load_weight := r.2.1.getD load_weight
  let t := t ++ [SwcEvent.call RteOp.Read_RpLoadSensor_LoadWeight r.1,
    SwcEvent.printf (if r.1 = E_OK then Report.load_value load_weight
      else Report.load_read_error)]
  let desired_torque := TorqueControl_desired throttle_input current_speed load_weight
  let desired_torque := TorqueControl_limit desired_torque
  let t := t ++ [SwcEvent.printf (Report.desired_torque desired_torque)]
  let w := rte.Rte_Write_PpMotorDriver_SetTorque desired_torque r.2.2
  let t := t ++ [SwcEvent.call (RteOp.Write_PpMotorDriver_SetTorque desired_torque) w.1,
    SwcEvent.printf (if w.1 = E_OK then Report.torque_sent else Report.torque_send_error)]
  let r := rte.Rte_Read_RpTorqueSensor_ActualTorque (some actual_torque) w.2
  let actual_torque := r.2.1.getD actual_torque
  let t := t ++ [SwcEvent.call RteOp.Read_RpTorqueSensor_ActualTorque r.1,
    SwcEvent.printf (if r.1 = E_OK then Report.actual_torque actual_torque
      else Report.actual_read_error)]
  let t := t ++ (if actual_torque < desired_torque then [SwcEvent.printf Report.increase_torque]
    else if actual_torque > desired_torque then [SwcEvent.printf Report.decrease_torque]
    else [])
  { throttle_input := throttle_input
    current_speed := current_speed
    load_weight := load_weight
    actual_torque := actual_torque
    desired_torque := desired_torque
    events := t
    state := r.2.2 }

def TorqueControl_Update {σ : Type} (rte : Rte_TorqueControl σ) (s : σ) : List SwcEvent × σ :=
  let run := TorqueControl_Update_run rte s
  (run.events, run.state)

/-- The state of the basic software after `TorqueControl_Init` has run at
program start on the facade of the repository. -/
def Bsw.afterInit : Bsw :=
  (TorqueControl_Init (Rte_IoHwAb (fun _ _ => none)) Bsw.startup).2

/-! ## Reading the record of a run -/

/-- The facade operation of an event, when the event is a call. -/
def SwcEvent.op? : SwcEvent → Option RteOp
  | SwcEvent.call op _ => some op
  | SwcEvent.printf _ => none

/-- The status returned to an event, when the event is a call. -/
def SwcEvent.status? : SwcEvent → Option Std_ReturnType
  | SwcEvent.call _ st => some st
  | SwcEvent.printf _ => none

/-- The torque value of an event, when the event is a motor write. -/
def SwcEvent.torque? : SwcEvent → Option ℚ
  | SwcEvent.call (RteOp.Write_PpMotorDriver_SetTorque v) _ => some v
  | _ => none

/-- The channel and duty cycle of a peripheral call, when it sets the PWM. -/
def McalCall.pwm? : McalCall → Option (Nat × Option Nat)
  | McalCall.Pwm_SetDutyCycle ch d => some (ch, d)
  | _ => none

/-- The facade operations called, in order. -/
def calledOps (t : List SwcEvent) : List RteOp :=
  t.filterMap SwcEvent.op?

/-- The statuses the facade calls returned, in order. -/
def returnedStatuses (t : List SwcEvent) : List Std_ReturnType :=
  t.filterMap SwcEvent.status?

/-- The torque values passed to `Rte_Write_PpMotorDriver_SetTorque`, in order. -/
def writtenTorques (t : List SwcEvent) : List ℚ :=
  t.filterMap SwcEvent.torque?

/-- The duty cycles forwarded to `Pwm_SetDutyCycle`, with their channel. -/
def pwmOutputs (m : List McalCall) : List (Nat × Option Nat) :=
  m.filterMap McalCall.pwm?

/-- The order in which `TorqueControl_Init` is specified to call the inits. -/
def initOrder : List RteOp :=
  [RteOp.Call_RpThrottleSensor_Init, RteOp.Call_RpSpeedSensor_Init, RteOp.Call_RpLoadSensor_Init,
    RteOp.Call_RpTorqueSensor_Init, RteOp.Call_PpMotorDriver_Init]

/-- The duty cycle as the round-trip property of the spec words it,
`round(v / configured_max * 100)`; to be compared with `MotorDriver_dutyCycle`. -/
def spec_dutyCycle (v : ℚ) (configured_max : Nat) : Int :=
  round (v / (configured_max : ℚ) * 100)

/-! ## Sequences of operations on the abstractions -/

/-- One call of an operation of the five abstractions, with its argument. -/
inductive BswOp where
  | ThrottleSensor_Init (ConfigPtr : Option ThrottleSensor_ConfigType)
  | SpeedSensor_Init (ConfigPtr : Option SpeedSensor_ConfigType)
  | LoadSensor_Init (ConfigPtr : Option LoadSensor_ConfigType)
  | TorqueSensor_Init (ConfigPtr : Option TorqueSensor_ConfigType)
  | MotorDriver_Init (ConfigPtr : Option MotorDriver_ConfigType)
  | ThrottleSensor_Read (ThrottlePosition : Option ℚ)
  | SpeedSensor_Read (SpeedValue : Option ℚ)
  | LoadSensor_Read (LoadValue : Option ℚ)
  | TorqueSensor_Read (TorqueValue : Option ℚ)
  | MotorDriver_SetTorque (TorqueValue : ℚ)

/-- The status returned by one operation and the state it leaves. -/
def Bsw.exec (adc : Adc_Samples) (s : Bsw) : BswOp → Std_ReturnType × Bsw
  | BswOp.ThrottleSensor_Init c => IoHwAb_ThrottleSensor_Init c s
  | BswOp.SpeedSensor_Init c => IoHwAb_SpeedSensor_Init c s
  | BswOp.LoadSensor_Init c => IoHwAb_LoadSensor_Init c s
  | BswOp.TorqueSensor_Init c => IoHwAb_TorqueSensor_Init c s
  | BswOp.MotorDriver_Init c => IoHwAb_MotorDriver_Init c s
  | BswOp.ThrottleSensor_Read p =>
    ((IoHwAb_ThrottleSensor_Read adc p s).1, (IoHwAb_ThrottleSensor_Read adc p s).2.2)
  | BswOp.SpeedSensor_Read p =>
    ((IoHwAb_SpeedSensor_Read adc p s).1, (IoHwAb_SpeedSensor_Read adc p s).2.2)
  | BswOp.LoadSensor_Read p =>
    ((IoHwAb_LoadSensor_Read adc p s).1, (IoHwAb_LoadSensor_Read adc p s).2.2)
  | BswOp.TorqueSensor_Read p =>
    ((IoHwAb_TorqueSensor_Read adc p s).1, (IoHwAb_TorqueSensor_Read adc p s).2.2)
  | BswOp.MotorDriver_SetTorque v => IoHwAb_MotorDriver_SetTorque v s

/-- The state after a sequence of operations, the first of the list first. -/
def Bsw.run (adc : Adc_Samples) : Bsw → List BswOp → Bsw
  | s, [] => s
  | s, op :: ops => Bsw.run adc (Bsw.exec adc s op).2 ops

/-- The configurations stored by the five abstractions. -/
structure StoredConfigs where
  throttle : ThrottleSensor_ConfigType
  speed : SpeedSensor_ConfigType
  load : LoadSensor_ConfigType
  torque : TorqueSensor_ConfigType
  motor : MotorDriver_ConfigType
  deriving DecidableEq, Repr

def Bsw.configs (s : Bsw) : StoredConfigs :=
  { throttle := s.ThrottleSensor_CurrentConfig
    speed := s.SpeedSensor_CurrentConfig
    load := s.LoadSensor_CurrentConfig
    torque := s.TorqueSensor_CurrentConfig
    motor := s.MotorDriver_CurrentConfig }

/-- The configurations after one more operation, as the spec words it: an
`Init` that returned `status` E_OK replaces the configuration of its own
abstraction by its argument; every other operation changes nothing. -/
def StoredConfigs.afterOp (c : StoredConfigs) (op : BswOp) (status : Std_ReturnType) :
    StoredConfigs :=
  match op with
  | BswOp.ThrottleSensor_Init (some a) => if status = E_OK then { c with throttle := a } else c
  | BswOp.SpeedSensor_Init (some a) => if status = E_OK then { c with speed := a } else c
  | BswOp.LoadSensor_Init (some a) => if status = E_OK then { c with load := a } else c
  | BswOp.TorqueSensor_Init (some a) => if status = E_OK then { c with torque := a } else c
  | BswOp.MotorDriver_Init (some a) => if status = E_OK then { c with motor := a } else c
  | _ => c

/-- The configurations after a sequence of operations started in state `s` with
configurations `c`, as the spec words it: those of the most recent successful
`Init` of each abstraction. -/
def StoredConfigs.afterOps (adc : Adc_Samples) : Bsw → StoredConfigs → List BswOp → StoredConfigs
  | _, c, [] => c
  | s, c, op :: ops =>
    StoredConfigs.afterOps adc (Bsw.exec adc s op).2 (c.afterOp op (Bsw.exec adc s op).1) ops

/-- Whether an operation is an `Init`. -/
def BswOp.isInit : BswOp → Bool
  | BswOp.ThrottleSensor_Init _ => true
  | BswOp.SpeedSensor_Init _ => true
  | BswOp.LoadSensor_Init _ => true
  | BswOp.TorqueSensor_Init _ => true
  | BswOp.MotorDriver_Init _ => true
  | _ => false

/-! ## Lemmas on the control law -/

lemma TorqueControl_limit_ge (d : ℚ) : MIN_TORQUE ≤ TorqueControl_limit d := by
  unfold TorqueControl_limit
  split_ifs with h1 h2
  · norm_num
  · exact le_refl _
  · exact not_lt.mp h2

lemma TorqueControl_limit_le (d : ℚ) : TorqueControl_limit d ≤ MAX_TORQUE := by
  unfold TorqueControl_limit
  split_ifs with h1 h2
  · exact le_refl _
  · norm_num
  · exact not_lt.mp h1

lemma TorqueControl_desired_eq (throttle speed load : ℚ) :
    TorqueControl_desired throttle speed load =
      throttle * 100 * (if speed > 50 then 0.8 else 1.0) + (if load > 500 then 10 else 0) := by
  unfold TorqueControl_desired
  split_ifs <;> norm_num

lemma TorqueControl_Update_writes {σ : Type} (rte : Rte_TorqueControl σ) (s : σ) :
    writtenTorques (TorqueControl_Update rte s).1 = [(TorqueControl_Update_run rte s).desired_torque] := by
  simp only [TorqueControl_Update, TorqueControl_Update_run, writtenTorques]
  split_ifs <;> simp [SwcEvent.torque?]

/-! ## Lemmas on single precision -/

lemma round_half_even_le_of_lt (q : ℚ) (N : ℤ) (h : q < (N : ℚ) + 1 / 2) :
    round_half_even q ≤ N := by
  have hf1 : ((⌊q⌋ : ℤ) : ℚ) ≤ q := Int.floor_le q
  have hfN : ⌊q⌋ ≤ N := by
    have : ((⌊q⌋ : ℤ) : ℚ) < ((N + 1 : ℤ) : ℚ) := by push_cast; linarith
    have := Int.cast_lt.mp this
    omega
  unfold round_half_even
  split_ifs with h1 h2 h3
  · exact hfN
  · have : ((⌊q⌋ : ℤ) : ℚ) < ((N : ℤ) : ℚ) := by linarith
    have := Int.cast_lt.mp this
    omega
  · exact hfN
  · have heq : q - ⌊q⌋ = 1 / 2 := le_antisymm (not_lt.mp h2) (not_lt.mp h1)
    have : ((⌊q⌋ : ℤ) : ℚ) < ((N : ℤ) : ℚ) := by linarith
    have := Int.cast_lt.mp this
    omega

lemma le_round_half_even_of_lt (q : ℚ) (N : ℤ) (h : (N : ℚ) - 1 / 2 < q) :
    N ≤ round_half_even q := by
  have hf2 : q < ((⌊q⌋ : ℤ) : ℚ) + 1 := Int.lt_floor_add_one q
  have hfN : N ≤ ⌊q⌋ + 1 := by
    have : ((N : ℤ) : ℚ) < ((⌊q⌋ + 2 : ℤ) : ℚ) := by push_cast; linarith
    have := Int.cast_lt.mp this
    omega
  unfold round_half_even
  split_ifs with h1 h2 h3
  · have : ((N : ℤ) : ℚ) < ((⌊q⌋ + 1 : ℤ) : ℚ) := by push_cast; linarith
    have := Int.cast_lt.mp this
    omega
  · exact hfN
  · have heq : q - ⌊q⌋ = 1 / 2 := le_antisymm (not_lt.mp h2) (not_lt.mp h1)
    have : ((N : ℤ) : ℚ) < ((⌊q⌋ + 1 : ℤ) : ℚ) := by push_cast; linarith
    have := Int.cast_lt.mp this
    omega
  · exact hfN

lemma abs_round_half_even_sub_le (q : ℚ) : |(round_half_even q : ℚ) - q| ≤ 1 / 2 := by
  have hf1 : ((⌊q⌋ : ℤ) : ℚ) ≤ q := Int.floor_le q
  have hf2 : q < ((⌊q⌋ : ℤ) : ℚ) + 1 := Int.lt_floor_add_one q
  rw [abs_le]
  unfold round_half_even
  split_ifs with h1 h2 h3 <;> push_cast <;> constructor <;> linarith

lemma f32_ulp_pos (x : ℚ) : 0 < f32_ulp x := by
  unfold f32_ulp
  positivity

lemma f32_exponent_le (x : ℚ) (k : ℤ) (hk : -126 ≤ k) (hx : |x| < (2 : ℚ) ^ (k + 1)) :
    f32_exponent x ≤ k := by
  unfold f32_exponent
  split_ifs with h0
  · exact hk
  · have hpos : 0 < |x| := abs_pos.mpr h0
    have : Int.log 2 |x| < k + 1 := by
      rw [← Int.lt_zpow_iff_log_lt (by norm_num) hpos]
      exact_mod_cast hx
    exact max_le (by omega) hk

lemma f32_exponent_ge (x : ℚ) : -126 ≤ f32_exponent x := by
  unfold f32_exponent
  split_ifs
  · exact le_refl _
  · exact le_max_right _ _

lemma f32_nearest_le (x b : ℚ) (M t : ℤ) (hb : b = (M : ℚ) * (2 : ℚ) ^ t)
    (ht : f32_exponent x - 23 ≤ t) (hx : x ≤ b) : f32_nearest x ≤ b := by
  have hu := f32_ulp_pos x
  obtain ⟨j, hj⟩ : ∃ j : ℕ, t = (j : ℤ) + (f32_exponent x - 23) :=
    ⟨(t - (f32_exponent x - 23)).toNat, by omega⟩
  have hbu : b = ((M * 2 ^ j : ℤ) : ℚ) * f32_ulp x := by
    rw [hb, hj, zpow_add₀ (by norm_num : (2 : ℚ) ≠ 0), zpow_natCast]
    unfold f32_ulp
    push_cast
    ring
  have hq : x / f32_ulp x < ((M * 2 ^ j : ℤ) : ℚ) + 1 / 2 := by
    have : x / f32_ulp x ≤ ((M * 2 ^ j : ℤ) : ℚ) := by
      rw [div_le_iff₀ hu, ← hbu]
      exact hx
    linarith
  have hr := round_half_even_le_of_lt _ _ hq
  have hr' : (round_half_even (x / f32_ulp x) : ℚ) ≤ ((M * 2 ^ j : ℤ) : ℚ) := by exact_mod_cast hr
  unfold f32_nearest
  rw [hbu]
  exact mul_le_mul_of_nonneg_right hr' hu.le

lemma f32_nearest_ge (x b : ℚ) (M t : ℤ) (hb : b = (M : ℚ) * (2 : ℚ) ^ t)
    (ht : f32_exponent x - 23 ≤ t) (hx : b ≤ x) : b ≤ f32_nearest x := by
  have hu := f32_ulp_pos x
  obtain ⟨j, hj⟩ : ∃ j : ℕ, t = (j : ℤ) + (f32_exponent x - 23) :=
    ⟨(t - (f32_exponent x - 23)).toNat, by omega⟩
  have hbu : b = ((M * 2 ^ j : ℤ) : ℚ) * f32_ulp x := by
    rw [hb, hj, zpow_add₀ (by norm_num : (2 : ℚ) ≠ 0), zpow_natCast]
    unfold f32_ulp
    push_cast
    ring
  have hq : ((M * 2 ^ j : ℤ) : ℚ) - 1 / 2 < x / f32_ulp x := by
    have : ((M * 2 ^ j : ℤ) : ℚ) ≤ x / f32_ulp x := by
      rw [le_div_iff₀ hu, ← hbu]
      exact hx
    linarith
  have hr := le_round_half_even_of_lt _ _ hq
  have hr' : ((M * 2 ^ j : ℤ) : ℚ) ≤ (round_half_even (x / f32_ulp x) : ℚ) := by exact_mod_cast hr
  unfold f32_nearest
  rw [hbu]
  exact mul_le_mul_of_nonneg_right hr' hu.le

lemma f32_nearest_err (x : ℚ) : |f32_nearest x - x| ≤ f32_ulp x / 2 := by
  have hu := f32_ulp_pos x
  have h := abs_round_half_even_sub_le (x / f32_ulp x)
  have e : f32_nearest x - x = ((round_half_even (x / f32_ulp x) : ℚ) - x / f32_ulp x) * f32_ulp x := by
    unfold f32_nearest
    field_simp
  rw [e, abs_mul, abs_of_pos hu]
  have := mul_le_mul_of_nonneg_right h hu.le
  linarith

/-! ## Lemmas on the duty cycle -/

lemma float_to_uint16_of_nonneg (x : ℚ) (h0 : 0 ≤ x) (h1 : x < 65536) :
    float_to_uint16 x = some ⌊x⌋₊ := by
  have hf0 : (0 : Int) ≤ ⌊x⌋ := Int.floor_nonneg.mpr h0
  have hf1 : ⌊x⌋ < 65536 := by
    have : ((⌊x⌋ : Int) : ℚ) < ((65536 : Int) : ℚ) := lt_of_le_of_lt (Int.floor_le x) (by exact_mod_cast h1)
    exact_mod_cast this
  simp only [float_to_uint16, float_trunc, if_pos h0]
  rw [if_pos ⟨hf0, hf1⟩, Int.floor_toNat]

lemma f32_ulp_le (x : ℚ) (k : ℤ) (hk : -126 ≤ k) (hx : |x| < (2 : ℚ) ^ (k + 1)) :
    f32_ulp x ≤ (2 : ℚ) ^ (k - 23) := by
  unfold f32_ulp
  exact zpow_le_zpow_right₀ (by norm_num) (by have := f32_exponent_le x k hk hx; omega)

/-- Rounding a value between 0 and a natural number below 2^24 stays between
them and does not overflow. -/
lemma f32_round_of_le_nat (x : ℚ) (n : ℕ) (hn : n < 2 ^ 24) (h0 : 0 ≤ x) (hx : x ≤ (n : ℚ)) :
    f32_round x = some (f32_nearest x) ∧ 0 ≤ f32_nearest x ∧ f32_nearest x ≤ (n : ℚ) := by
  have hnq : (n : ℚ) < 2 ^ 24 := by exact_mod_cast hn
  have hE : f32_exponent x - 23 ≤ 0 := by
    have := f32_exponent_le x 23 (by norm_num) (by rw [abs_of_nonneg h0]; norm_num; linarith)
    omega
  have hlo : 0 ≤ f32_nearest x := f32_nearest_ge x 0 0 0 (by norm_num) hE h0
  have hhi : f32_nearest x ≤ (n : ℚ) := f32_nearest_le x n n 0 (by norm_num) hE hx
  refine ⟨?_, hlo, hhi⟩
  unfold f32_round
  rw [if_pos]
  rw [abs_of_nonneg hlo]
  have : (2 : ℚ) ^ 24 ≤ 2 ^ 128 := by norm_num
  linarith

lemma f32_exponent_eq (x : ℚ) (E : ℤ) (hE : -126 ≤ E) (h1 : (2 : ℚ) ^ E ≤ x)
    (h2 : x < (2 : ℚ) ^ (E + 1)) : f32_exponent x = E := by
  have hpos : 0 < x := lt_of_lt_of_le (by positivity) h1
  have hle : E ≤ Int.log 2 x := by
    rw [← Int.zpow_le_iff_le_log (by norm_num) hpos]
    exact_mod_cast h1
  have hlt : Int.log 2 x < E + 1 := by
    rw [← Int.lt_zpow_iff_log_lt (by norm_num) hpos]
    exact_mod_cast h2
  unfold f32_exponent
  rw [if_neg hpos.ne', abs_of_pos hpos]
  have : Int.log 2 x = E := by omega
  rw [this]
  exact max_eq_left hE

/-- Evaluation of the rounding at a value whose binade and nearest multiple of
the unit in the last place are given. -/
lemma f32_nearest_eval (x : ℚ) (E n : ℤ) (hE : -126 ≤ E) (h1 : (2 : ℚ) ^ E ≤ x)
    (h2 : x < (2 : ℚ) ^ (E + 1))
    (hn1 : (n : ℚ) - 1 / 2 < x / (2 : ℚ) ^ (E - 23))
    (hn2 : x / (2 : ℚ) ^ (E - 23) < (n : ℚ) + 1 / 2) :
    f32_nearest x = (n : ℚ) * (2 : ℚ) ^ (E - 23) := by
  have hexp := f32_exponent_eq x E hE h1 h2
  unfold f32_nearest f32_ulp
  rw [hexp]
  have : round_half_even (x / (2 : ℚ) ^ (E - 23)) = n :=
    le_antisymm (round_half_even_le_of_lt _ _ hn2) (le_round_half_even_of_lt _ _ hn1)
  rw [this]

lemma f32_nearest_zero : f32_nearest 0 = 0 := by
  have h1 := f32_nearest_le 0 0 0 0 (by norm_num)
    (by have := f32_exponent_le 0 23 (by norm_num) (by norm_num); omega) (le_refl _)
  have h2 := f32_nearest_ge 0 0 0 0 (by norm_num)
    (by have := f32_exponent_le 0 23 (by norm_num) (by norm_num); omega) (le_refl _)
  exact le_antisymm h1 h2

lemma MotorDriver_ratio_unit (v : ℚ) (m : Nat) (hm : 0 < m) (h0 : 0 ≤ v) (h1 : v ≤ (m : ℚ)) :
    0 ≤ v / (m : ℚ) ∧ v / (m : ℚ) ≤ 1 := by
  have hmq : (0 : ℚ) < (m : ℚ) := by exact_mod_cast hm
  exact ⟨by positivity, (div_le_one hmq).mpr h1⟩

/-- For an accepted value under a maximum above 0 the duty cycle has a value:
the single-precision product, between 0 and 100, without its fraction. -/
lemma MotorDriver_dutyCycle_of_accepted (v : ℚ) (m : Nat) (hm : 0 < m) (h0 : 0 ≤ v)
    (h1 : v ≤ (m : ℚ)) :
    MotorDriver_dutyCycle v m = some ⌊MotorDriver_dutyFloat v m⌋₊ ∧
      0 ≤ MotorDriver_dutyFloat v m ∧ MotorDriver_dutyFloat v m ≤ 100 := by
  have hmq : (m : ℚ) ≠ 0 := by exact_mod_cast hm.ne'
  obtain ⟨hr0, hr1⟩ := MotorDriver_ratio_unit v m hm h0 h1
  obtain ⟨e1, l1, u1⟩ := f32_round_of_le_nat (v / (m : ℚ)) 1 (by norm_num) hr0 (by exact_mod_cast hr1)
  have u1' : f32_nearest (v / (m : ℚ)) ≤ 1 := by exact_mod_cast u1
  obtain ⟨e2, l2, u2⟩ := f32_round_of_le_nat (f32_nearest (v / (m : ℚ)) * 100) 100 (by norm_num)
    (by positivity) (by push_cast; linarith)
  have u2' : f32_nearest (f32_nearest (v / (m : ℚ)) * 100) ≤ 100 := by exact_mod_cast u2
  refine ⟨?_, l2, u2'⟩
  simp only [MotorDriver_dutyCycle, f32_div, f32_mul, float_div, if_neg hmq, Option.some_bind, e1, e2]
  exact float_to_uint16_of_nonneg _ l2 (by linarith)


/-- For an accepted value under a maximum above 0 neither single-precision
operation overflows: the quotient and the product have the values that
`MotorDriver_dutyFloat` composes. -/
lemma MotorDriver_dutyFloat_value (v : ℚ) (m : Nat) (hm : 0 < m) (h0 : 0 ≤ v)
    (h1 : v ≤ (m : ℚ)) :
    (f32_div v (m : ℚ)).bind (fun ratio => f32_mul ratio 100) =
      some (MotorDriver_dutyFloat v m) := by
  have hmq : (m : ℚ) ≠ 0 := by exact_mod_cast hm.ne'
  obtain ⟨hr0, hr1⟩ := MotorDriver_ratio_unit v m hm h0 h1
  obtain ⟨e1, l1, u1⟩ := f32_round_of_le_nat (v / (m : ℚ)) 1 (by norm_num) hr0 (by exact_mod_cast hr1)
  have u1' : f32_nearest (v / (m : ℚ)) ≤ 1 := by exact_mod_cast u1
  obtain ⟨e2, _, _⟩ := f32_round_of_le_nat (f32_nearest (v / (m : ℚ)) * 100) 100 (by norm_num)
    (by positivity) (by push_cast; linarith)
  simp only [f32_div, f32_mul, float_div, if_neg hmq, Option.some_bind, e1, e2,
    MotorDriver_dutyFloat]

lemma f32_nearest_of_round (v : ℚ) (h : f32_round v = some v) : f32_nearest v = v := by
  unfold f32_round at h
  split_ifs at h
  exact Option.some.inj h

/-- A natural number below 2^24 is a single-precision value. -/
lemma f32_round_nat (n : ℕ) (hn : n < 2 ^ 24) : f32_round (n : ℚ) = some (n : ℚ) := by
  obtain ⟨e, _, hhi⟩ := f32_round_of_le_nat (n : ℚ) n hn (by positivity) (le_refl _)
  have hE : f32_exponent (n : ℚ) - 23 ≤ 0 := by
    have hnq : (n : ℚ) < 2 ^ 24 := by exact_mod_cast hn
    have := f32_exponent_le (n : ℚ) 23 (by norm_num)
      (by rw [abs_of_nonneg (by positivity)]; norm_num; linarith)
    omega
  have hlo : (n : ℚ) ≤ f32_nearest (n : ℚ) :=
    f32_nearest_ge (n : ℚ) n n 0 (by norm_num) hE (le_refl _)
  rw [e, le_antisymm hhi hlo]

lemma floor_sub_floor_le_one (x y : ℚ) (h : |y - x| ≤ 1 / 65536) : |⌊y⌋ - ⌊x⌋| ≤ 1 := by
  have h' := abs_le.mp h
  have hx1 := Int.floor_le x
  have hx2 := Int.lt_floor_add_one x
  have hy1 := Int.floor_le y
  have hy2 := Int.lt_floor_add_one y
  have a : ⌊y⌋ < ⌊x⌋ + 2 := by
    have : ((⌊y⌋ : ℤ) : ℚ) < ((⌊x⌋ + 2 : ℤ) : ℚ) := by push_cast; linarith
    exact Int.cast_lt.mp this
  have b : ⌊x⌋ < ⌊y⌋ + 2 := by
    have : ((⌊x⌋ : ℤ) : ℚ) < ((⌊y⌋ + 2 : ℤ) : ℚ) := by push_cast; linarith
    exact Int.cast_lt.mp this
  rw [abs_le]
  constructor <;> omega

lemma MotorDriver_dutyFloat_2_300 :
    MotorDriver_dutyFloat 2 300 = (11184811 : ℚ) * (2 : ℚ) ^ (-24 : ℤ) := by
  have e1 : f32_nearest ((2 : ℚ) / ((300 : ℕ) : ℚ)) = ((14316558 : ℤ) : ℚ) * (2 : ℚ) ^ ((-8 : ℤ) - 23) :=
    f32_nearest_eval _ (-8) 14316558 (by norm_num) (by norm_num) (by norm_num) (by norm_num)
      (by norm_num)
  have e2 : f32_nearest (((14316558 : ℤ) : ℚ) * (2 : ℚ) ^ ((-8 : ℤ) - 23) * 100) =
      ((11184811 : ℤ) : ℚ) * (2 : ℚ) ^ ((-1 : ℤ) - 23) :=
    f32_nearest_eval _ (-1) 11184811 (by norm_num) (by norm_num) (by norm_num) (by norm_num)
      (by norm_num)
  unfold MotorDriver_dutyFloat
  rw [e1, e2]
  norm_num

lemma MotorDriver_dutyFloat_159_300 :
    MotorDriver_dutyFloat 159 300 = (13893631 : ℚ) * (2 : ℚ) ^ (-18 : ℤ) := by
  have e1 : f32_nearest ((159 : ℚ) / ((300 : ℕ) : ℚ)) = ((8891924 : ℤ) : ℚ) * (2 : ℚ) ^ ((-1 : ℤ) - 23) :=
    f32_nearest_eval _ (-1) 8891924 (by norm_num) (by norm_num) (by norm_num) (by norm_num)
      (by norm_num)
  have e2 : f32_nearest (((8891924 : ℤ) : ℚ) * (2 : ℚ) ^ ((-1 : ℤ) - 23) * 100) =
      ((13893631 : ℤ) : ℚ) * (2 : ℚ) ^ ((5 : ℤ) - 23) :=
    f32_nearest_eval _ 5 13893631 (by norm_num) (by norm_num) (by norm_num) (by norm_num)
      (by norm_num)
  unfold MotorDriver_dutyFloat
  rw [e1, e2]
  norm_num

lemma MotorDriver_dutyFloat_90_300 :
    MotorDriver_dutyFloat 90 300 = (15728641 : ℚ) * (2 : ℚ) ^ (-19 : ℤ) := by
  have e1 : f32_nearest ((90 : ℚ) / ((300 : ℕ) : ℚ)) = ((10066330 : ℤ) : ℚ) * (2 : ℚ) ^ ((-2 : ℤ) - 23) :=
    f32_nearest_eval _ (-2) 10066330 (by norm_num) (by norm_num) (by norm_num) (by norm_num)
      (by norm_num)
  have e2 : f32_nearest (((10066330 : ℤ) : ℚ) * (2 : ℚ) ^ ((-2 : ℤ) - 23) * 100) =
      ((15728641 : ℤ) : ℚ) * (2 : ℚ) ^ ((4 : ℤ) - 23) :=
    f32_nearest_eval _ 4 15728641 (by norm_num) (by norm_num) (by norm_num) (by norm_num)
      (by norm_num)
  unfold MotorDriver_dutyFloat
  rw [e1, e2]
  norm_num



/-- The single-precision duty value is within 2^-16 of the exact one. -/
lemma MotorDriver_dutyFloat_err (v : ℚ) (m : Nat) (hm : 0 < m) (h0 : 0 ≤ v) (h1 : v ≤ (m : ℚ)) :
    |MotorDriver_dutyFloat v m - v / (m : ℚ) * 100| ≤ 1 / 65536 := by
  obtain ⟨hr0, hr1⟩ := MotorDriver_ratio_unit v m hm h0 h1
  obtain ⟨_, l1, u1⟩ := f32_round_of_le_nat (v / (m : ℚ)) 1 (by norm_num) hr0 (by exact_mod_cast hr1)
  have u1' : f32_nearest (v / (m : ℚ)) ≤ 1 := by exact_mod_cast u1
  have hu1 : f32_ulp (v / (m : ℚ)) ≤ 1 / 8388608 := by
    have := f32_ulp_le (v / (m : ℚ)) 0 (by norm_num) (by rw [abs_of_nonneg hr0]; norm_num; linarith)
    norm_num at this
    linarith
  have hu2 : f32_ulp (f32_nearest (v / (m : ℚ)) * 100) ≤ 1 / 131072 := by
    have := f32_ulp_le (f32_nearest (v / (m : ℚ)) * 100) 6 (by norm_num)
      (by rw [abs_of_nonneg (by positivity)]; norm_num; linarith)
    norm_num at this
    linarith
  have e1 := abs_le.mp (f32_nearest_err (v / (m : ℚ)))
  have e2 := abs_le.mp (f32_nearest_err (f32_nearest (v / (m : ℚ)) * 100))
  unfold MotorDriver_dutyFloat
  rw [abs_le]
  constructor <;> linarith [e1.1, e1.2, e2.1, e2.2]

/-- With the maximum 300 and a value up to 100 the single-precision duty value
is within 2^-18 of the exact one and at most 33.5. -/
lemma MotorDriver_dutyFloat_300_err (c : ℚ) (h0 : 0 ≤ c) (h1 : c ≤ 100) :
    |MotorDriver_dutyFloat c 300 - c / 3| ≤ 1 / 262144 ∧ MotorDriver_dutyFloat c 300 ≤ 67 / 2 := by
  have hr0 : 0 ≤ c / ((300 : ℕ) : ℚ) := by positivity
  have hr1 : c / ((300 : ℕ) : ℚ) ≤ 1 / 3 := by
    push_cast
    rw [div_le_iff₀ (by norm_num)]
    linarith
  have hu1 : f32_ulp (c / ((300 : ℕ) : ℚ)) ≤ 1 / 33554432 := by
    have := f32_ulp_le (c / ((300 : ℕ) : ℚ)) (-2) (by norm_num)
      (by rw [abs_of_nonneg hr0]; norm_num; norm_num at hr1; linarith)
    norm_num at this
    linarith
  have e1 := abs_le.mp (f32_nearest_err (c / ((300 : ℕ) : ℚ)))
  have l1 : 0 ≤ f32_nearest (c / ((300 : ℕ) : ℚ)) :=
    (f32_round_of_le_nat _ 1 (by norm_num) hr0 (by push_cast; linarith)).2.1
  have hx2 : f32_nearest (c / ((300 : ℕ) : ℚ)) * 100 ≤ 67 / 2 := by linarith [e1.2]
  have hu2 : f32_ulp (f32_nearest (c / ((300 : ℕ) : ℚ)) * 100) ≤ 1 / 262144 := by
    have := f32_ulp_le (f32_nearest (c / ((300 : ℕ) : ℚ)) * 100) 5 (by norm_num)
      (by rw [abs_of_nonneg (by positivity)]; norm_num; linarith)
    norm_num at this
    linarith
  have e2 := abs_le.mp (f32_nearest_err (f32_nearest (c / ((300 : ℕ) : ℚ)) * 100))
  have hE : f32_exponent (f32_nearest (c / ((300 : ℕ) : ℚ)) * 100) - 23 ≤ -1 := by
    have := f32_exponent_le (f32_nearest (c / ((300 : ℕ) : ℚ)) * 100) 5 (by norm_num)
      (by rw [abs_of_nonneg (by positivity)]; norm_num; linarith)
    omega
  have hhi : f32_nearest (f32_nearest (c / ((300 : ℕ) : ℚ)) * 100) ≤ 67 / 2 :=
    f32_nearest_le _ (67 / 2) 67 (-1) (by norm_num) hE hx2
  have ec : c / ((300 : ℕ) : ℚ) * 100 = c / 3 := by push_cast; ring
  unfold MotorDriver_dutyFloat
  refine ⟨?_, hhi⟩
  rw [abs_le]
  constructor <;> linarith [e1.1, e1.2, e2.1, e2.2]

/-- On the grid of the commands of a cycle, away from the multiples of 3, the
fraction discarded from the single-precision value is the one discarded from the
exact third of the command. -/
lemma MotorDriver_dutyFloat_300_floor (K : ℕ) (hK : K ≤ 102300) (hdiv : ¬ 3069 ∣ K) :
    ⌊MotorDriver_dutyFloat ((K : ℚ) / 1023) 300⌋₊ = ⌊(K : ℚ) / 1023 / 3⌋₊ := by
  have hc0 : (0 : ℚ) ≤ (K : ℚ) / 1023 := by positivity
  have hc1 : (K : ℚ) / 1023 ≤ 100 := by
    rw [div_le_iff₀ (by norm_num)]
    have : (K : ℚ) ≤ 102300 := by exact_mod_cast hK
    linarith
  obtain ⟨herr, _⟩ := MotorDriver_dutyFloat_300_err _ hc0 hc1
  have herr' := abs_le.mp herr
  have hr1 : 1 ≤ K % 3069 := by
    rcases Nat.eq_zero_or_pos (K % 3069) with h | h
    · exact absurd (Nat.dvd_of_mod_eq_zero h) hdiv
    · exact h
  have hr2 : K % 3069 < 3069 := Nat.mod_lt _ (by norm_num)
  have hK' : K = 3069 * (K / 3069) + K % 3069 := (Nat.div_add_mod K 3069).symm
  have hKq : (K : ℚ) = 3069 * ((K / 3069 : ℕ) : ℚ) + ((K % 3069 : ℕ) : ℚ) := by exact_mod_cast hK'
  have hrq1 : (1 : ℚ) ≤ ((K % 3069 : ℕ) : ℚ) := by exact_mod_cast hr1
  have hrq2 : ((K % 3069 : ℕ) : ℚ) ≤ 3068 := by
    have : K % 3069 ≤ 3068 := by omega
    exact_mod_cast this
  have hthird : (K : ℚ) / 1023 / 3 = ((K / 3069 : ℕ) : ℚ) + ((K % 3069 : ℕ) : ℚ) / 3069 := by
    rw [hKq]; field_simp; ring
  have hlo : (1 : ℚ) / 3069 ≤ ((K % 3069 : ℕ) : ℚ) / 3069 := by
    rw [div_le_div_iff₀ (by norm_num) (by norm_num)]; linarith
  have hhi : ((K % 3069 : ℕ) : ℚ) / 3069 ≤ 3068 / 3069 := by
    rw [div_le_div_iff₀ (by norm_num) (by norm_num)]; linarith
  have hfl : ⌊(K : ℚ) / 1023 / 3⌋₊ = K / 3069 := by
    rw [Nat.floor_eq_iff (by positivity), hthird]
    constructor <;> linarith
  rw [hfl, Nat.floor_eq_iff (by linarith [herr'.1, hthird])]
  rw [hthird] at herr'
  constructor <;> linarith [herr'.1, herr'.2]


lemma f32_exponent_spec (x : ℚ) (hx : (2 : ℚ) ^ (-126 : ℤ) ≤ x) :
    (2 : ℚ) ^ f32_exponent x ≤ x ∧ x < (2 : ℚ) ^ (f32_exponent x + 1) := by
  have hpos : 0 < x := lt_of_lt_of_le (by positivity) hx
  have hlog : -126 ≤ Int.log 2 x := by
    rw [← Int.zpow_le_iff_le_log (by norm_num) hpos]
    exact_mod_cast hx
  have he : f32_exponent x = Int.log 2 x := by
    unfold f32_exponent
    rw [if_neg hpos.ne', abs_of_pos hpos]
    exact max_eq_left hlog
  rw [he]
  constructor
  · exact_mod_cast Int.zpow_log_le_self (b := 2) (by norm_num) hpos
  · exact_mod_cast Int.lt_zpow_succ_log_self (b := 2) (by norm_num) x

lemma f32_nearest_le_mid (x : ℚ) (E N : ℤ) (hexp : f32_exponent x = E)
    (h : x / (2 : ℚ) ^ (E - 23) < (N : ℚ) + 1 / 2) :
    f32_nearest x ≤ (N : ℚ) * (2 : ℚ) ^ (E - 23) := by
  unfold f32_nearest f32_ulp
  rw [hexp]
  have hr : (round_half_even (x / (2 : ℚ) ^ (E - 23)) : ℚ) ≤ (N : ℚ) := by
    exact_mod_cast round_half_even_le_of_lt _ _ h
  exact mul_le_mul_of_nonneg_right hr (by positivity)

/-- A single-precision value below an integer maximum under 2^16 has a quotient
by that maximum that is below 1 - 2^-25, so its quotient does not round to 1. -/
lemma MotorDriver_ratio_lt (v : ℚ) (m : ℕ) (hm16 : m < 65536) (h0 : 0 ≤ v) (hlt : v < (m : ℚ))
    (hv : f32_nearest v = v) : v / (m : ℚ) < 1 - 1 / 33554432 := by
  have hmpos : (0 : ℚ) < (m : ℚ) := lt_of_le_of_lt h0 hlt
  have hm1 : (1 : ℚ) ≤ (m : ℚ) := by
    have : 0 < m := by exact_mod_cast hmpos
    exact_mod_cast this
  by_contra hcon
  have hge : 1 - 1 / 33554432 ≤ v / (m : ℚ) := not_lt.mp hcon
  rw [le_div_iff₀ hmpos] at hge
  have hvhalf : (1 : ℚ) / 2 ≤ v := by linarith
  obtain ⟨s1, s2⟩ := f32_exponent_spec v (by
    have : (2 : ℚ) ^ (-126 : ℤ) ≤ 1 / 2 := by
      rw [show (1 : ℚ) / 2 = (2 : ℚ) ^ (-1 : ℤ) by norm_num]
      exact zpow_le_zpow_right₀ (by norm_num) (by norm_num)
    exact le_trans this hvhalf)
  have hE15 : f32_exponent v ≤ 15 := by
    apply f32_exponent_le v 15 (by norm_num)
    rw [abs_of_nonneg h0]
    have : (m : ℚ) < 65536 := by exact_mod_cast hm16
    norm_num
    linarith
  obtain ⟨k, hk⟩ : ∃ k : ℕ, f32_exponent v - 23 = -(k : ℤ) :=
    ⟨(23 - f32_exponent v).toNat, by omega⟩
  have hUpos : (0 : ℚ) < (2 : ℚ) ^ (f32_exponent v - 23) := by positivity
  have hUk : (2 : ℚ) ^ (f32_exponent v - 23) * (2 : ℚ) ^ k = 1 := by
    rw [hk, zpow_neg, zpow_natCast]
    exact inv_mul_cancel₀ (by positivity)
  have hs2 : v < (2 : ℚ) ^ (f32_exponent v - 23) * 16777216 := by
    have : (2 : ℚ) ^ (f32_exponent v + 1) = (2 : ℚ) ^ (f32_exponent v - 23) * 16777216 := by
      rw [show f32_exponent v + 1 = (f32_exponent v - 23) + 24 by ring,
        zpow_add₀ (by norm_num : (2 : ℚ) ≠ 0)]
      norm_num
    rw [this] at s2
    exact s2
  have hgrid : (m : ℚ) - v =
      (((m : ℤ) * 2 ^ k - round_half_even (v / f32_ulp v) : ℤ) : ℚ) *
        (2 : ℚ) ^ (f32_exponent v - 23) := by
    have hv' : v = (round_half_even (v / f32_ulp v) : ℚ) * (2 : ℚ) ^ (f32_exponent v - 23) := by
      conv_lhs => rw [← hv]
      rfl
    push_cast
    rw [sub_mul, ← hv', mul_assoc, mul_comm ((2 : ℚ) ^ k), hUk, mul_one]
  have hD : (1 : ℤ) ≤ (m : ℤ) * 2 ^ k - round_half_even (v / f32_ulp v) := by
    have hpos : (0 : ℚ) <
        (((m : ℤ) * 2 ^ k - round_half_even (v / f32_ulp v) : ℤ) : ℚ) := by
      by_contra hneg
      have : (((m : ℤ) * 2 ^ k - round_half_even (v / f32_ulp v) : ℤ) : ℚ) *
          (2 : ℚ) ^ (f32_exponent v - 23) ≤ 0 :=
        mul_nonpos_of_nonpos_of_nonneg (not_lt.mp hneg) hUpos.le
      linarith
    have := Int.cast_pos.mp hpos
    omega
  have hDq : (1 : ℚ) ≤
      (((m : ℤ) * 2 ^ k - round_half_even (v / f32_ulp v) : ℤ) : ℚ) := by exact_mod_cast hD
  have hstep : (2 : ℚ) ^ (f32_exponent v - 23) ≤ (m : ℚ) - v := by
    rw [hgrid]
    exact le_mul_of_one_le_left hUpos.le hDq
  linarith

/-- A single-precision value below the maximum has a duty value below 100. -/
lemma MotorDriver_dutyFloat_lt_100 (v : ℚ) (m : ℕ) (hm16 : m < 65536) (h0 : 0 ≤ v)
    (hlt : v < (m : ℚ)) (hv : f32_nearest v = v) : MotorDriver_dutyFloat v m < 100 := by
  have hmpos : (0 : ℚ) < (m : ℚ) := lt_of_le_of_lt h0 hlt
  have hx0 : 0 ≤ v / (m : ℚ) := by positivity
  have hx1 : v / (m : ℚ) < 1 := (div_lt_one hmpos).mpr hlt
  have hE1 : f32_exponent (v / (m : ℚ)) ≤ 0 :=
    f32_exponent_le _ 0 (by norm_num) (by rw [abs_of_nonneg hx0]; norm_num; linarith)
  have hy1 : f32_nearest (v / (m : ℚ)) ≤ 16777215 / 16777216 := by
    by_cases hhalf : v / (m : ℚ) < 1 / 2
    · have := f32_nearest_le (v / (m : ℚ)) (1 / 2) 1 (-1) (by norm_num) (by omega) hhalf.le
      linarith
    · have hexp : f32_exponent (v / (m : ℚ)) = -1 :=
        f32_exponent_eq _ (-1) (by norm_num) (by norm_num; linarith [not_lt.mp hhalf])
          (by norm_num; linarith)
      have hr := MotorDriver_ratio_lt v m hm16 h0 hlt hv
      have := f32_nearest_le_mid (v / (m : ℚ)) (-1) 16777215 hexp (by
        rw [div_lt_iff₀ (by positivity)]
        norm_num
        linarith)
      norm_num at this
      linarith
  have hy0 : 0 ≤ f32_nearest (v / (m : ℚ)) :=
    (f32_round_of_le_nat _ 1 (by norm_num) hx0 (by push_cast; linarith)).2.1
  unfold MotorDriver_dutyFloat
  by_cases h64 : f32_nearest (v / (m : ℚ)) * 100 < 64
  · have hE : f32_exponent (f32_nearest (v / (m : ℚ)) * 100) ≤ 6 :=
      f32_exponent_le _ 6 (by norm_num) (by rw [abs_of_nonneg (by positivity)]; norm_num; linarith)
    have := f32_nearest_le (f32_nearest (v / (m : ℚ)) * 100) 64 64 0 (by norm_num) (by omega) h64.le
    linarith
  · have hexp : f32_exponent (f32_nearest (v / (m : ℚ)) * 100) = 6 :=
      f32_exponent_eq _ 6 (by norm_num) (by norm_num; linarith [not_lt.mp h64])
        (by norm_num; linarith)
    have := f32_nearest_le_mid (f32_nearest (v / (m : ℚ)) * 100) 6 13107199 hexp (by
      rw [div_lt_iff₀ (by positivity)]
      norm_num
      linarith)
    norm_num at this
    linarith

lemma IoHwAb_MotorDriver_SetTorque_of_accepted (v : ℚ) (s : Bsw)
    (h0 : 0 ≤ v) (h1 : v ≤ (s.MotorDriver_CurrentConfig.Motor_MaxTorque : ℚ)) :
    IoHwAb_MotorDriver_SetTorque v s =
      (E_OK, Pwm_SetDutyCycle s.MotorDriver_CurrentConfig.Motor_Channel
        (MotorDriver_dutyCycle v s.MotorDriver_CurrentConfig.Motor_MaxTorque) s) := by
  unfold IoHwAb_MotorDriver_SetTorque
  rw [if_neg]
  rintro (h | h)
  · exact absurd h0 (not_le.mpr h)
  · exact absurd h1 (not_le.mpr h)

lemma IoHwAb_MotorDriver_SetTorque_of_rejected (v : ℚ) (s : Bsw)
    (h : v < 0 ∨ (s.MotorDriver_CurrentConfig.Motor_MaxTorque : ℚ) < v) :
    IoHwAb_MotorDriver_SetTorque v s = (E_NOT_OK, s) := by
  unfold IoHwAb_MotorDriver_SetTorque
  rw [if_pos h]

/-- The stored motor configuration after the facade's motor init at start-up. -/
lemma Rte_Call_PpMotorDriver_Init_startup :
    (Rte_Call_PpMotorDriver_Init Bsw.startup).2.MotorDriver_CurrentConfig = ⟨1, 300⟩ := rfl

/-! ## Lemmas on the sensors -/

lemma Bsw.afterInit_eq :
    Bsw.afterInit =
      { ThrottleSensor_CurrentConfig := ⟨0⟩
        SpeedSensor_CurrentConfig := ⟨1, 200⟩
        LoadSensor_CurrentConfig := ⟨2, 1000⟩
        TorqueSensor_CurrentConfig := ⟨3, 500⟩
        MotorDriver_CurrentConfig := ⟨1, 300⟩
        mcal := [McalCall.Adc_Init 0, McalCall.Dio_Init, McalCall.Adc_Init 1, McalCall.Adc_Init 2,
          McalCall.Adc_Init 3, McalCall.Pwm_Init 1 1000 0] } := rfl

lemma ThrottleSensor_convert_eq (raw : Nat) :
    ThrottleSensor_convert raw = if (raw : ℚ) / 1023 > 1 then 1 else (raw : ℚ) / 1023 := by
  have h0 : ¬ ((raw : ℚ) / 1023 < 0) := not_lt.mpr (by positivity)
  simp only [ThrottleSensor_convert, THROTTLE_SENSOR_MIN_RAW_VALUE, THROTTLE_SENSOR_MAX_RAW_VALUE,
    THROTTLE_POSITION_MIN, THROTTLE_POSITION_MAX, sub_zero, Int.cast_natCast, Int.cast_ofNat,
    if_neg h0]

/-! ## Lemmas on the component -/

lemma TorqueControl_Update_calls {σ : Type} (rte : Rte_TorqueControl σ) (s : σ) :
    calledOps (TorqueControl_Update rte s).1 =
      [RteOp.Read_RpThrottleSensor_ThrottlePosition, RteOp.Read_RpSpeedSensor_Speed,
        RteOp.Read_RpLoadSensor_LoadWeight,
        RteOp.Write_PpMotorDriver_SetTorque (TorqueControl_Update_run rte s).desired_torque,
        RteOp.Read_RpTorqueSensor_ActualTorque] := by
  simp only [TorqueControl_Update, TorqueControl_Update_run, calledOps]
  split_ifs <;> simp [SwcEvent.op?]

lemma TorqueControl_Init_ready_only_if {σ : Type} (rte : Rte_TorqueControl σ) (s : σ)
    (hready : SwcEvent.printf Report.system_ready ∈ (TorqueControl_Init rte s).1) :
    ∀ st ∈ returnedStatuses (TorqueControl_Init rte s).1, st = E_OK := by
  revert hready
  simp only [TorqueControl_Init]
  by_cases h1 : (rte.Rte_Call_RpThrottleSensor_Init s).1 = E_OK
  · by_cases h2 : (rte.Rte_Call_RpSpeedSensor_Init (rte.Rte_Call_RpThrottleSensor_Init s).2).1 = E_OK
    · by_cases h3 : (rte.Rte_Call_RpLoadSensor_Init (rte.Rte_Call_RpSpeedSensor_Init
          (rte.Rte_Call_RpThrottleSensor_Init s).2).2).1 = E_OK
      · by_cases h4 : (rte.Rte_Call_RpTorqueSensor_Init (rte.Rte_Call_RpLoadSensor_Init
            (rte.Rte_Call_RpSpeedSensor_Init (rte.Rte_Call_RpThrottleSensor_Init s).2).2).2).1 = E_OK
        · by_cases h5 : (rte.Rte_Call_PpMotorDriver_Init (rte.Rte_Call_RpTorqueSensor_Init
              (rte.Rte_Call_RpLoadSensor_Init (rte.Rte_Call_RpSpeedSensor_Init
                (rte.Rte_Call_RpThrottleSensor_Init s).2).2).2).2).1 = E_OK <;>
            simp [h1, h2, h3, h4, h5, returnedStatuses, SwcEvent.status?]
        · simp [h1, h2, h3, h4, returnedStatuses, SwcEvent.status?]
      · simp [h1, h2, h3, returnedStatuses, SwcEvent.status?]
    · simp [h1, h2, returnedStatuses, SwcEvent.status?]
  · simp [h1, returnedStatuses, SwcEvent.status?]

/-! ## Lemmas on failed reads and on the order of a cycle -/

lemma IoHwAb_ThrottleSensor_Read_adc_failed (adc : Adc_Samples) (s : Bsw) (v : ℚ)
    (h : adc s.adcReads s.ThrottleSensor_CurrentConfig.ThrottleSensor_Channel = none) :
    IoHwAb_ThrottleSensor_Read adc (some v) s =
      (E_NOT_OK, some v,
        s.record (McalCall.Adc_ReadChannel s.ThrottleSensor_CurrentConfig.ThrottleSensor_Channel)) := by
  simp [IoHwAb_ThrottleSensor_Read, Adc_ReadChannel, h]

lemma IoHwAb_SpeedSensor_Read_adc_failed (adc : Adc_Samples) (s : Bsw) (v : ℚ)
    (h : adc s.adcReads s.SpeedSensor_CurrentConfig.SpeedSensor_Channel = none) :
    IoHwAb_SpeedSensor_Read adc (some v) s =
      (E_NOT_OK, some v,
        s.record (McalCall.Adc_ReadChannel s.SpeedSensor_CurrentConfig.SpeedSensor_Channel)) := by
  simp [IoHwAb_SpeedSensor_Read, Adc_ReadChannel, h]

lemma IoHwAb_LoadSensor_Read_adc_failed (adc : Adc_Samples) (s : Bsw) (v : ℚ)
    (h : adc s.adcReads s.LoadSensor_CurrentConfig.LoadSensor_Channel = none) :
    IoHwAb_LoadSensor_Read adc (some v) s =
      (E_NOT_OK, some v,
        s.record (McalCall.Adc_ReadChannel s.LoadSensor_CurrentConfig.LoadSensor_Channel)) := by
  simp [IoHwAb_LoadSensor_Read, Adc_ReadChannel, h]

lemma IoHwAb_TorqueSensor_Read_adc_failed (adc : Adc_Samples) (s : Bsw) (v : ℚ)
    (h : adc s.adcReads s.TorqueSensor_CurrentConfig.TorqueSensor_Channel = none) :
    IoHwAb_TorqueSensor_Read adc (some v) s =
      (E_NOT_OK, some v,
        s.record (McalCall.Adc_ReadChannel s.TorqueSensor_CurrentConfig.TorqueSensor_Channel)) := by
  simp [IoHwAb_TorqueSensor_Read, Adc_ReadChannel, h]

lemma Rte_Read_RpThrottleSensor_ThrottlePosition_failed (adc : Adc_Samples) (s : Bsw) (v : ℚ)
    (h : (Rte_Read_RpThrottleSensor_ThrottlePosition adc (some v) s).1 ≠ E_OK) :
    (Rte_Read_RpThrottleSensor_ThrottlePosition adc (some v) s).2.1 = some v := by
  revert h
  simp only [Rte_Read_RpThrottleSensor_ThrottlePosition, IoHwAb_ThrottleSensor_Read, Adc_ReadChannel]
  cases adc s.adcReads s.ThrottleSensor_CurrentConfig.ThrottleSensor_Channel <;> simp

lemma Rte_Read_RpSpeedSensor_Speed_failed (adc : Adc_Samples) (s : Bsw) (v : ℚ)
    (h : (Rte_Read_RpSpeedSensor_Speed adc (some v) s).1 ≠ E_OK) :
    (Rte_Read_RpSpeedSensor_Speed adc (some v) s).2.1 = some v := by
  revert h
  simp only [Rte_Read_RpSpeedSensor_Speed, IoHwAb_SpeedSensor_Read, Adc_ReadChannel]
  cases adc s.adcReads s.SpeedSensor_CurrentConfig.SpeedSensor_Channel <;> simp

lemma Rte_Read_RpLoadSensor_LoadWeight_failed (adc : Adc_Samples) (s : Bsw) (v : ℚ)
    (h : (Rte_Read_RpLoadSensor_LoadWeight adc (some v) s).1 ≠ E_OK) :
    (Rte_Read_RpLoadSensor_LoadWeight adc (some v) s).2.1 = some v := by
  revert h
  simp only [Rte_Read_RpLoadSensor_LoadWeight, IoHwAb_LoadSensor_Read, Adc_ReadChannel]
  cases adc s.adcReads s.LoadSensor_CurrentConfig.LoadSensor_Channel <;> simp

lemma TorqueControl_limit_desired_zero_throttle (speed load : ℚ) :
    TorqueControl_limit (TorqueControl_desired 0 speed load) = if load > 500 then 10 else 0 := by
  unfold TorqueControl_desired TorqueControl_limit
  split_ifs <;> norm_num at *

lemma TorqueControl_Update_run_desired {σ : Type} (rte : Rte_TorqueControl σ) (s : σ) :
    (TorqueControl_Update_run rte s).desired_torque =
      TorqueControl_limit (TorqueControl_desired (TorqueControl_Update_run rte s).throttle_input
        (TorqueControl_Update_run rte s).current_speed (TorqueControl_Update_run rte s).load_weight) :=
  rfl

lemma TorqueControl_Update_statuses {σ : Type} (rte : Rte_TorqueControl σ) (s : σ) :
    returnedStatuses (TorqueControl_Update rte s).1 =
      [(rte.Rte_Read_RpThrottleSensor_ThrottlePosition (some 0) s).1,
        (rte.Rte_Read_RpSpeedSensor_Speed (some 0)
          (rte.Rte_Read_RpThrottleSensor_ThrottlePosition (some 0) s).2.2).1,
        (rte.Rte_Read_RpLoadSensor_LoadWeight (some 0)
          (rte.Rte_Read_RpSpeedSensor_Speed (some 0)
            (rte.Rte_Read_RpThrottleSensor_ThrottlePosition (some 0) s).2.2).2.2).1,
        (rte.Rte_Write_PpMotorDriver_SetTorque (TorqueControl_Update_run rte s).desired_torque
          (rte.Rte_Read_RpLoadSensor_LoadWeight (some 0)
            (rte.Rte_Read_RpSpeedSensor_Speed (some 0)
              (rte.Rte_Read_RpThrottleSensor_ThrottlePosition (some 0) s).2.2).2.2).2.2).1,
        (rte.Rte_Read_RpTorqueSensor_ActualTorque (some 0)
          (rte.Rte_Write_PpMotorDriver_SetTorque (TorqueControl_Update_run rte s).desired_torque
            (rte.Rte_Read_RpLoadSensor_LoadWeight (some 0)
              (rte.Rte_Read_RpSpeedSensor_Speed (some 0)
                (rte.Rte_Read_RpThrottleSensor_ThrottlePosition (some 0) s).2.2).2.2).2.2).2).1] := by
  simp only [TorqueControl_Update, TorqueControl_Update_run, returnedStatuses]
  split_ifs <;> simp [SwcEvent.status?]

/-! ## Lemmas on the stored configurations -/

lemma Bsw.record_configs (s : Bsw) (c : McalCall) : (s.record c).configs = s.configs := rfl

lemma Bsw.exec_configs (adc : Adc_Samples) (s : Bsw) (op : BswOp) :
    (Bsw.exec adc s op).2.configs = s.configs.afterOp op (Bsw.exec adc s op).1 := by
  cases op with
  | ThrottleSensor_Init c => cases c <;> rfl
  | SpeedSensor_Init c => cases c <;> rfl
  | LoadSensor_Init c => cases c <;> rfl
  | TorqueSensor_Init c => cases c <;> rfl
  | MotorDriver_Init c => cases c <;> rfl
  | ThrottleSensor_Read p =>
    cases p with
    | none => rfl
    | some v =>
      simp only [Bsw.exec, IoHwAb_ThrottleSensor_Read, Adc_ReadChannel, StoredConfigs.afterOp]
      cases adc s.adcReads s.ThrottleSensor_CurrentConfig.ThrottleSensor_Channel <;> rfl
  | SpeedSensor_Read p =>
    cases p with
    | none => rfl
    | some v =>
      simp only [Bsw.exec, IoHwAb_SpeedSensor_Read, Adc_ReadChannel, StoredConfigs.afterOp]
      cases adc s.adcReads s.SpeedSensor_CurrentConfig.SpeedSensor_Channel <;> rfl
  | LoadSensor_Read p =>
    cases p with
    | none => rfl
    | some v =>
      simp only [Bsw.exec, IoHwAb_LoadSensor_Read, Adc_ReadChannel, StoredConfigs.afterOp]
      cases adc s.adcReads s.LoadSensor_CurrentConfig.LoadSensor_Channel <;> rfl
  | TorqueSensor_Read p =>
    cases p with
    | none => rfl
    | some v =>
      simp only [Bsw.exec, IoHwAb_TorqueSensor_Read, Adc_ReadChannel, StoredConfigs.afterOp]
      cases adc s.adcReads s.TorqueSensor_CurrentConfig.TorqueSensor_Channel <;> rfl
  | MotorDriver_SetTorque v =>
    simp only [Bsw.exec, IoHwAb_MotorDriver_SetTorque, StoredConfigs.afterOp]
    split_ifs <;> rfl

lemma Bsw.run_configs (adc : Adc_Samples) (ops : List BswOp) (s : Bsw) :
    (Bsw.run adc s ops).configs = StoredConfigs.afterOps adc s s.configs ops := by
  induction ops generalizing s with
  | nil => rfl
  | cons op ops ih =>
    simp only [Bsw.run, StoredConfigs.afterOps]
    rw [ih, Bsw.exec_configs]

lemma StoredConfigs.afterOp_not_init (c : StoredConfigs) (op : BswOp) (status : Std_ReturnType)
    (h : op.isInit = false) : c.afterOp op status = c := by
  cases op <;> first | rfl | (simp [BswOp.isInit] at h)

/-! ## Lemmas on the deviation report and on the inputs of a cycle -/

lemma TorqueControl_Update_run_throttle_failed (adc : Adc_Samples) (s : Bsw)
    (h : (Rte_Read_RpThrottleSensor_ThrottlePosition adc (some 0) s).1 ≠ E_OK) :
    (TorqueControl_Update_run (Rte_IoHwAb adc) s).throttle_input = 0 := by
  have := Rte_Read_RpThrottleSensor_ThrottlePosition_failed adc s 0 h
  simp only [TorqueControl_Update_run, Rte_IoHwAb]
  rw [this]
  rfl

lemma TorqueControl_limit_mono (x y : ℚ) (h : x ≤ y) :
    TorqueControl_limit x ≤ TorqueControl_limit y := by
  unfold TorqueControl_limit
  simp only [MAX_TORQUE, MIN_TORQUE]
  split_ifs <;> linarith

lemma TorqueControl_desired_mono_throttle (t1 t2 speed load : ℚ) (h : t1 ≤ t2) :
    TorqueControl_desired t1 speed load ≤ TorqueControl_desired t2 speed load := by
  unfold TorqueControl_desired
  simp only [MAX_TORQUE]
  split_ifs <;> linarith

lemma TorqueControl_desired_nonneg (throttle speed load : ℚ) (ht : 0 ≤ throttle) :
    0 ≤ TorqueControl_desired throttle speed load := by
  unfold TorqueControl_desired
  simp only [MAX_TORQUE]
  split_ifs <;> linarith

lemma TorqueControl_desired_le (throttle speed load : ℚ) (ht1 : throttle ≤ 1) :
    TorqueControl_desired throttle speed load ≤ 110 := by
  unfold TorqueControl_desired
  simp only [MAX_TORQUE]
  split_ifs <;> linarith

lemma Bsw.adcReads_record_read (s : Bsw) (ch : Nat) :
    (s.record (McalCall.Adc_ReadChannel ch)).adcReads = s.adcReads + 1 := by
  simp [Bsw.adcReads, Bsw.record, List.countP_append]

lemma Rte_Read_RpThrottleSensor_ThrottlePosition_state (adc : Adc_Samples) (s : Bsw) (v : ℚ) :
    (Rte_Read_RpThrottleSensor_ThrottlePosition adc (some v) s).2.2 =
      s.record (McalCall.Adc_ReadChannel s.ThrottleSensor_CurrentConfig.ThrottleSensor_Channel) := by
  simp only [Rte_Read_RpThrottleSensor_ThrottlePosition, IoHwAb_ThrottleSensor_Read, Adc_ReadChannel]
  cases adc s.adcReads s.ThrottleSensor_CurrentConfig.ThrottleSensor_Channel <;> rfl

lemma Rte_Read_RpSpeedSensor_Speed_state (adc : Adc_Samples) (s : Bsw) (v : ℚ) :
    (Rte_Read_RpSpeedSensor_Speed adc (some v) s).2.2 =
      s.record (McalCall.Adc_ReadChannel s.SpeedSensor_CurrentConfig.SpeedSensor_Channel) := by
  simp only [Rte_Read_RpSpeedSensor_Speed, IoHwAb_SpeedSensor_Read, Adc_ReadChannel]
  cases adc s.adcReads s.SpeedSensor_CurrentConfig.SpeedSensor_Channel <;> rfl

lemma Rte_Read_RpLoadSensor_LoadWeight_state (adc : Adc_Samples) (s : Bsw) (v : ℚ) :
    (Rte_Read_RpLoadSensor_LoadWeight adc (some v) s).2.2 =
      s.record (McalCall.Adc_ReadChannel s.LoadSensor_CurrentConfig.LoadSensor_Channel) := by
  simp only [Rte_Read_RpLoadSensor_LoadWeight, IoHwAb_LoadSensor_Read, Adc_ReadChannel]
  cases adc s.adcReads s.LoadSensor_CurrentConfig.LoadSensor_Channel <;> rfl

lemma Rte_Read_RpTorqueSensor_ActualTorque_state (adc : Adc_Samples) (s : Bsw) (v : ℚ) :
    (Rte_Read_RpTorqueSensor_ActualTorque adc (some v) s).2.2 =
      s.record (McalCall.Adc_ReadChannel s.TorqueSensor_CurrentConfig.TorqueSensor_Channel) := by
  simp only [Rte_Read_RpTorqueSensor_ActualTorque, IoHwAb_TorqueSensor_Read, Adc_ReadChannel]
  cases adc s.adcReads s.TorqueSensor_CurrentConfig.TorqueSensor_Channel <;> rfl

/-- The state in which a cycle started in `s` writes the torque: the three
reads have been recorded. -/
lemma TorqueControl_Update_IoHwAb_write_state (adc : Adc_Samples) (s : Bsw) :
    (Rte_Read_RpLoadSensor_LoadWeight adc (some 0)
      (Rte_Read_RpSpeedSensor_Speed adc (some 0)
        (Rte_Read_RpThrottleSensor_ThrottlePosition adc (some 0) s).2.2).2.2).2.2 =
      ((s.record (McalCall.Adc_ReadChannel s.ThrottleSensor_CurrentConfig.ThrottleSensor_Channel)).record
        (McalCall.Adc_ReadChannel s.SpeedSensor_CurrentConfig.SpeedSensor_Channel)).record
        (McalCall.Adc_ReadChannel s.LoadSensor_CurrentConfig.LoadSensor_Channel) := by
  rw [Rte_Read_RpLoadSensor_LoadWeight_state, Rte_Read_RpSpeedSensor_Speed_state,
    Rte_Read_RpThrottleSensor_ThrottlePosition_state]
  rfl

lemma IoHwAb_SpeedSensor_Read_adc_ok (adc : Adc_Samples) (s : Bsw) (v : ℚ) (raw : Nat)
    (h : adc s.adcReads s.SpeedSensor_CurrentConfig.SpeedSensor_Channel = some raw)
    (h16 : raw < 65536) :
    IoHwAb_SpeedSensor_Read adc (some v) s =
      (E_OK, some (((raw : ℚ) / 1023) * (s.SpeedSensor_CurrentConfig.SpeedSensor_MaxValue : ℚ)),
        s.record (McalCall.Adc_ReadChannel s.SpeedSensor_CurrentConfig.SpeedSensor_Channel)) := by
  simp [IoHwAb_SpeedSensor_Read, Adc_ReadChannel, h, Nat.mod_eq_of_lt h16, Bsw.record]

lemma IoHwAb_LoadSensor_Read_adc_ok (adc : Adc_Samples) (s : Bsw) (v : ℚ) (raw : Nat)
    (h : adc s.adcReads s.LoadSensor_CurrentConfig.LoadSensor_Channel = some raw)
    (h16 : raw < 65536) :
    IoHwAb_LoadSensor_Read adc (some v) s =
      (E_OK, some (((raw : ℚ) / 1023) * (s.LoadSensor_CurrentConfig.LoadSensor_MaxValue : ℚ)),
        s.record (McalCall.Adc_ReadChannel s.LoadSensor_CurrentConfig.LoadSensor_Channel)) := by
  simp [IoHwAb_LoadSensor_Read, Adc_ReadChannel, h, Nat.mod_eq_of_lt h16, Bsw.record]

lemma pwmOutputs_record_read (s : Bsw) (ch : Nat) :
    pwmOutputs (s.record (McalCall.Adc_ReadChannel ch)).mcal = pwmOutputs s.mcal := by
  simp [pwmOutputs, Bsw.record, McalCall.pwm?]

lemma pwmOutputs_Pwm_SetDutyCycle (s : Bsw) (ch : Nat) (d : Option Nat) :
    pwmOutputs (Pwm_SetDutyCycle ch d s).mcal = pwmOutputs s.mcal ++ [(ch, d)] := by
  simp [pwmOutputs, Pwm_SetDutyCycle, Bsw.record, McalCall.pwm?]

lemma speed_derate_threshold (raw : Nat) : (raw : ℚ) / 1023 * ((200 : ℕ) : ℚ) > 50 ↔ 256 ≤ raw := by
  have key : (raw : ℚ) / 1023 * ((200 : ℕ) : ℚ) > 50 ↔ (51150 : ℚ) < (raw : ℚ) * 200 := by
    push_cast
    rw [gt_iff_lt, div_mul_eq_mul_div, lt_div_iff₀ (by norm_num : (0 : ℚ) < 1023)]
    norm_num
  have cast : (51150 : ℚ) < (raw : ℚ) * 200 ↔ 51150 < raw * 200 := by exact_mod_cast Iff.rfl
  rw [key, cast]
  omega

lemma load_bonus_threshold (raw : Nat) : (raw : ℚ) / 1023 * ((1000 : ℕ) : ℚ) > 500 ↔ 512 ≤ raw := by
  have key : (raw : ℚ) / 1023 * ((1000 : ℕ) : ℚ) > 500 ↔ (511500 : ℚ) < (raw : ℚ) * 1000 := by
    push_cast
    rw [gt_iff_lt, div_mul_eq_mul_div, lt_div_iff₀ (by norm_num : (0 : ℚ) < 1023)]
    norm_num
  have cast : (511500 : ℚ) < (raw : ℚ) * 1000 ↔ 511500 < raw * 1000 := by exact_mod_cast Iff.rfl
  rw [key, cast]
  omega

lemma TorqueControl_limit_of_mem (x : ℚ) (h0 : 0 ≤ x) (h1 : x ≤ 100) : TorqueControl_limit x = x := by
  unfold TorqueControl_limit
  rw [if_neg (not_lt.mpr h1), if_neg (not_lt.mpr h0)]

lemma TorqueControl_limit_of_gt (x : ℚ) (h : 100 < x) : TorqueControl_limit x = 100 := by
  unfold TorqueControl_limit
  rw [if_pos h]

lemma IoHwAb_MotorDriver_SetTorque_300 (s : Bsw) (c : ℚ)
    (h300 : s.MotorDriver_CurrentConfig.Motor_MaxTorque = 300) (h0 : 0 ≤ c) (h1 : c ≤ 100) :
    IoHwAb_MotorDriver_SetTorque c s =
        (E_OK, Pwm_SetDutyCycle s.MotorDriver_CurrentConfig.Motor_Channel
          (some ⌊MotorDriver_dutyFloat c 300⌋₊) s) ∧
      ⌊MotorDriver_dutyFloat c 300⌋₊ ≤ 33 := by
  have hle' : c ≤ (s.MotorDriver_CurrentConfig.Motor_MaxTorque : ℚ) := by
    rw [h300]; push_cast; linarith
  have hacc := MotorDriver_dutyCycle_of_accepted c s.MotorDriver_CurrentConfig.Motor_MaxTorque
    (by rw [h300]; norm_num) h0 hle'
  rw [h300] at hacc
  constructor
  · rw [IoHwAb_MotorDriver_SetTorque_of_accepted c s h0 hle', h300, hacc.1]
  · have h := (MotorDriver_dutyFloat_300_err c h0 h1).2
    have : ⌊MotorDriver_dutyFloat c 300⌋₊ < 34 := by
      rw [Nat.floor_lt hacc.2.1]
      push_cast
      linarith
    omega

lemma MotorDriver_dutyFloat_zero (m : Nat) : MotorDriver_dutyFloat 0 m = 0 := by
  unfold MotorDriver_dutyFloat
  rw [zero_div, f32_nearest_zero, zero_mul, f32_nearest_zero]

/-- The duty cycle of every value on the grid of the commands of a cycle is the
third of the value without its fraction. -/
lemma MotorDriver_dutyFloat_300_command (K : ℕ) (hK : K ≤ 102300)
    (hdiv : 3069 ∣ K → K = 0 ∨ K = 92070) :
    ⌊MotorDriver_dutyFloat ((K : ℚ) / 1023) 300⌋₊ = ⌊(K : ℚ) / 1023 / 3⌋₊ := by
  by_cases h : 3069 ∣ K
  · rcases hdiv h with h0 | h90
    · subst h0
      simp [MotorDriver_dutyFloat_zero]
    · subst h90
      have e : ((92070 : ℕ) : ℚ) / 1023 = 90 := by norm_num
      have hA : ⌊(90 : ℚ) / 3⌋₊ = 30 := by
        rw [Nat.floor_eq_iff (by positivity)]
        norm_num
      have hB : ⌊(15728641 : ℚ) * (2 : ℚ) ^ (-19 : ℤ)⌋₊ = 30 := by
        rw [Nat.floor_eq_iff (by positivity)]
        norm_num
      rw [e, MotorDriver_dutyFloat_90_300, hA, hB]
  · exact MotorDriver_dutyFloat_300_floor K hK h

lemma ThrottleSensor_convert_grid (raw : Nat) :
    ∃ N : ℕ, N ≤ 1023 ∧ ThrottleSensor_convert raw = (N : ℚ) / 1023 := by
  rw [ThrottleSensor_convert_eq]
  split_ifs with h
  · exact ⟨1023, le_refl _, by norm_num⟩
  · refine ⟨raw, ?_, rfl⟩
    have h' : (raw : ℚ) / 1023 ≤ 1 := not_lt.mp h
    rw [div_le_one (by norm_num)] at h'
    exact_mod_cast h'

lemma TorqueControl_Update_IoHwAb_throttle_grid (adc : Adc_Samples) (s : Bsw) :
    ∃ N : ℕ, N ≤ 1023 ∧
      (TorqueControl_Update_run (Rte_IoHwAb adc) s).throttle_input = (N : ℚ) / 1023 := by
  have e : (TorqueControl_Update_run (Rte_IoHwAb adc) s).throttle_input =
      (IoHwAb_ThrottleSensor_Read adc (some 0) s).2.1.getD 0 := rfl
  rw [e]
  simp only [IoHwAb_ThrottleSensor_Read, Adc_ReadChannel]
  cases adc s.adcReads s.ThrottleSensor_CurrentConfig.ThrottleSensor_Channel with
  | none => exact ⟨0, by norm_num, by simp⟩
  | some raw =>
    obtain ⟨N, hN, hc⟩ := ThrottleSensor_convert_grid (raw % 65536)
    exact ⟨N, hN, by simpa using hc⟩

/-- The commands a cycle can issue when the throttle is `N / 1023`: multiples of
1/1023 up to 100, of which only 0 and 90 are multiples of 3. -/
lemma TorqueControl_command_grid (N : ℕ) (hN : N ≤ 1023) (speed load : ℚ) :
    ∃ K : ℕ, K ≤ 102300 ∧
      TorqueControl_limit (TorqueControl_desired ((N : ℚ) / 1023) speed load) = (K : ℚ) / 1023 ∧
      (3069 ∣ K → K = 0 ∨ K = 92070) := by
  have hNq : (N : ℚ) ≤ 1023 := by exact_mod_cast hN
  have hN0 : (0 : ℚ) ≤ (N : ℚ) := by positivity
  by_cases hs : speed > 50 <;> by_cases hl : load > 500
  · refine ⟨80 * N + 10230, by omega, ?_, by omega⟩
    have hd : TorqueControl_desired ((N : ℚ) / 1023) speed load = ((80 * N + 10230 : ℕ) : ℚ) / 1023 := by
      simp only [TorqueControl_desired, MAX_TORQUE, if_pos hs, if_pos hl]
      push_cast
      field_simp
      ring
    rw [hd, TorqueControl_limit_of_mem _ (by positivity)
      (by rw [div_le_iff₀ (by norm_num)]; push_cast; linarith)]
  · refine ⟨80 * N, by omega, ?_, by omega⟩
    have hd : TorqueControl_desired ((N : ℚ) / 1023) speed load = ((80 * N : ℕ) : ℚ) / 1023 := by
      simp only [TorqueControl_desired, MAX_TORQUE, if_pos hs, if_neg hl]
      push_cast
      field_simp
      ring
    rw [hd, TorqueControl_limit_of_mem _ (by positivity)
      (by rw [div_le_iff₀ (by norm_num)]; push_cast; linarith)]
  · have hd : TorqueControl_desired ((N : ℚ) / 1023) speed load =
        ((100 * N + 10230 : ℕ) : ℚ) / 1023 := by
      simp only [TorqueControl_desired, MAX_TORQUE, if_neg hs, if_pos hl]
      push_cast
      field_simp
      ring
    by_cases hbig : 921 ≤ N
    · refine ⟨102300, le_refl _, ?_, by omega⟩
      have hbq : (921 : ℚ) ≤ (N : ℚ) := by exact_mod_cast hbig
      rw [hd, TorqueControl_limit_of_gt _
        (by rw [lt_div_iff₀ (by norm_num)]; push_cast; linarith)]
      norm_num
    · refine ⟨100 * N + 10230, by omega, ?_, by omega⟩
      have hbq : (N : ℚ) ≤ 920 := by
        have : N ≤ 920 := by omega
        exact_mod_cast this
      rw [hd, TorqueControl_limit_of_mem _ (by positivity)
        (by rw [div_le_iff₀ (by norm_num)]; push_cast; linarith)]
  · refine ⟨100 * N, by omega, ?_, by omega⟩
    have hd : TorqueControl_desired ((N : ℚ) / 1023) speed load = ((100 * N : ℕ) : ℚ) / 1023 := by
      simp only [TorqueControl_desired, MAX_TORQUE, if_neg hs, if_neg hl]
      push_cast
      field_simp
      ring
    rw [hd, TorqueControl_limit_of_mem _ (by positivity)
      (by rw [div_le_iff₀ (by norm_num)]; push_cast; linarith)]

/-- The duty cycle of the command of a cycle on the facade of the repository. -/
lemma TorqueControl_Update_IoHwAb_duty (adc : Adc_Samples) (s : Bsw) :
    ⌊MotorDriver_dutyFloat (TorqueControl_Update_run (Rte_IoHwAb adc) s).desired_torque 300⌋₊ =
      ⌊(TorqueControl_Update_run (Rte_IoHwAb adc) s).desired_torque / 3⌋₊ := by
  obtain ⟨N, hN, hT⟩ := TorqueControl_Update_IoHwAb_throttle_grid adc s
  obtain ⟨K, hK, hcmd, hdiv⟩ := TorqueControl_command_grid N hN
    (TorqueControl_Update_run (Rte_IoHwAb adc) s).current_speed
    (TorqueControl_Update_run (Rte_IoHwAb adc) s).load_weight
  rw [TorqueControl_Update_run_desired, hT, hcmd]
  exact MotorDriver_dutyFloat_300_command K hK hdiv

lemma TorqueControl_Update_IoHwAb_final_state (adc : Adc_Samples) (s : Bsw) :
    (TorqueControl_Update (Rte_IoHwAb adc) s).2 =
      (IoHwAb_MotorDriver_SetTorque (TorqueControl_Update_run (Rte_IoHwAb adc) s).desired_torque
        (((s.record
          (McalCall.Adc_ReadChannel s.ThrottleSensor_CurrentConfig.ThrottleSensor_Channel)).record
          (McalCall.Adc_ReadChannel s.SpeedSensor_CurrentConfig.SpeedSensor_Channel)).record
          (McalCall.Adc_ReadChannel s.LoadSensor_CurrentConfig.LoadSensor_Channel))).2.record
        (McalCall.Adc_ReadChannel
          (IoHwAb_MotorDriver_SetTorque (TorqueControl_Update_run (Rte_IoHwAb adc) s).desired_torque
            (((s.record
              (McalCall.Adc_ReadChannel s.ThrottleSensor_CurrentConfig.ThrottleSensor_Channel)).record
              (McalCall.Adc_ReadChannel s.SpeedSensor_CurrentConfig.SpeedSensor_Channel)).record
              (McalCall.Adc_ReadChannel
                s.LoadSensor_CurrentConfig.LoadSensor_Channel))).2.TorqueSensor_CurrentConfig.TorqueSensor_Channel) := by
  have h : (TorqueControl_Update (Rte_IoHwAb adc) s).2 =
      (Rte_Read_RpTorqueSensor_ActualTorque adc (some 0)
        (IoHwAb_MotorDriver_SetTorque (TorqueControl_Update_run (Rte_IoHwAb adc) s).desired_torque
          (Rte_Read_RpLoadSensor_LoadWeight adc (some 0)
            (Rte_Read_RpSpeedSensor_Speed adc (some 0)
              (Rte_Read_RpThrottleSensor_ThrottlePosition adc (some 0) s).2.2).2.2).2.2).2).2.2 := rfl
  rw [h, Rte_Read_RpTorqueSensor_ActualTorque_state, TorqueControl_Update_IoHwAb_write_state]

lemma TorqueControl_Update_IoHwAb_write_status (adc : Adc_Samples) (s : Bsw) :
    (returnedStatuses (TorqueControl_Update (Rte_IoHwAb adc) s).1)[3]? =
      some (IoHwAb_MotorDriver_SetTorque (TorqueControl_Update_run (Rte_IoHwAb adc) s).desired_torque
        (((s.record
          (McalCall.Adc_ReadChannel s.ThrottleSensor_CurrentConfig.ThrottleSensor_Channel)).record
          (McalCall.Adc_ReadChannel s.SpeedSensor_CurrentConfig.SpeedSensor_Channel)).record
          (McalCall.Adc_ReadChannel s.LoadSensor_CurrentConfig.LoadSensor_Channel))).1 := by
  rw [TorqueControl_Update_statuses, ← TorqueControl_Update_IoHwAb_write_state adc s]
  rfl

lemma IoHwAb_MotorDriver_SetTorque_status (v : ℚ) (s : Bsw) :
    (IoHwAb_MotorDriver_SetTorque v s).1 = E_OK ↔
      0 ≤ v ∧ v ≤ (s.MotorDriver_CurrentConfig.Motor_MaxTorque : ℚ) := by
  unfold IoHwAb_MotorDriver_SetTorque
  split_ifs with h
  · simp only [E_NOT_OK, E_OK, one_ne_zero, false_iff, not_and, not_le]
    intro h0
    rcases h with h | h
    · exact absurd h0 (not_le.mpr h)
    · exact h
  · simp only [true_iff]
    push_neg at h
    exact h

lemma TorqueControl_Update_IoHwAb_speed (adc : Adc_Samples) (s : Bsw) (raw : Nat)
    (h : adc (s.adcReads + 1) s.SpeedSensor_CurrentConfig.SpeedSensor_Channel = some raw)
    (h16 : raw < 65536) :
    (TorqueControl_Update_run (Rte_IoHwAb adc) s).current_speed =
      (raw : ℚ) / 1023 * (s.SpeedSensor_CurrentConfig.SpeedSensor_MaxValue : ℚ) := by
  have e : (TorqueControl_Update_run (Rte_IoHwAb adc) s).current_speed =
      (IoHwAb_SpeedSensor_Read adc (some 0)
        (Rte_Read_RpThrottleSensor_ThrottlePosition adc (some 0) s).2.2).2.1.getD 0 := rfl
  rw [e, Rte_Read_RpThrottleSensor_ThrottlePosition_state,
    IoHwAb_SpeedSensor_Read_adc_ok adc _ 0 raw (by rw [Bsw.adcReads_record_read]; exact h) h16]
  rfl

lemma TorqueControl_Update_IoHwAb_load (adc : Adc_Samples) (s : Bsw) (raw : Nat)
    (h : adc (s.adcReads + 2) s.LoadSensor_CurrentConfig.LoadSensor_Channel = some raw)
    (h16 : raw < 65536) :
    (TorqueControl_Update_run (Rte_IoHwAb adc) s).load_weight =
      (raw : ℚ) / 1023 * (s.LoadSensor_CurrentConfig.LoadSensor_MaxValue : ℚ) := by
  have e : (TorqueControl_Update_run (Rte_IoHwAb adc) s).load_weight =
      (IoHwAb_LoadSensor_Read adc (some 0)
        (Rte_Read_RpSpeedSensor_Speed adc (some 0)
          (Rte_Read_RpThrottleSensor_ThrottlePosition adc (some 0) s).2.2).2.2).2.1.getD 0 := rfl
  rw [e, Rte_Read_RpSpeedSensor_Speed_state, Rte_Read_RpThrottleSensor_ThrottlePosition_state,
    IoHwAb_LoadSensor_Read_adc_ok adc _ 0 raw
      (by rw [Bsw.adcReads_record_read, Bsw.adcReads_record_read]; exact h) h16]
  rfl

/-! ## Theorems -/

/-- C1: when the three reads of a cycle succeed with a throttle in [0,1], a
speed >= 0 and a load >= 0, the desired torque before the limit is
`throttle*100*(0.8 if speed > 50 else 1.0) + (10 if load > 500 else 0)`, and the
limited value, which is the one value written to the motor driver, lies in
[0,100]. -/
theorem TorqueControl_Update_control_law {σ : Type} (rte : Rte_TorqueControl σ) (s s1 s2 s3 : σ)
    (throttle speed load : ℚ)
    (hT : rte.Rte_Read_RpThrottleSensor_ThrottlePosition (some 0) s = (E_OK, some throttle, s1))
    (hS : rte.Rte_Read_RpSpeedSensor_Speed (some 0) s1 = (E_OK, some speed, s2))
    (hL : rte.Rte_Read_RpLoadSensor_LoadWeight (some 0) s2 = (E_OK, some load, s3))
    (_hthrottle : 0 ≤ throttle ∧ throttle ≤ 1) (_hspeed : 0 ≤ speed) (_hload : 0 ≤ load) :
    TorqueControl_desired throttle speed load =
        throttle * 100 * (if speed > 50 then 0.8 else 1.0) + (if load > 500 then 10 else 0) ∧
      (TorqueControl_Update_run rte s).desired_torque =
        TorqueControl_limit (TorqueControl_desired throttle speed load) ∧
      writtenTorques (TorqueControl_Update rte s).1 =
        [TorqueControl_limit (TorqueControl_desired throttle speed load)] ∧
      0 ≤ TorqueControl_limit (TorqueControl_desired throttle speed load) ∧
      TorqueControl_limit (TorqueControl_desired throttle speed load) ≤ 100 := by
  have hrun : (TorqueControl_Update_run rte s).desired_torque =
      TorqueControl_limit (TorqueControl_desired throttle speed load) := by
    simp [TorqueControl_Update_run, hT, hS, hL]
  refine ⟨TorqueControl_desired_eq throttle speed load, hrun, ?_,
    TorqueControl_limit_ge _, TorqueControl_limit_le _⟩
  rw [TorqueControl_Update_writes, hrun]

/-- Witness of C1: a facade whose reads give throttle 0.9, speed 60, load 600. -/
theorem TorqueControl_Update_control_law_witness :
    ((0 : ℚ) ≤ 9 / 10 ∧ (9 / 10 : ℚ) ≤ 1) ∧
      writtenTorques (TorqueControl_Update
        (Rte_fixed (E_OK, 9 / 10) (E_OK, 60) (E_OK, 600) (E_OK, 80) E_OK (fun _ => E_OK)) ()).1 =
        [TorqueControl_limit (TorqueControl_desired (9 / 10) 60 600)] :=
  ⟨by norm_num,
    (TorqueControl_Update_control_law
      (Rte_fixed (E_OK, 9 / 10) (E_OK, 60) (E_OK, 600) (E_OK, 80) E_OK (fun _ => E_OK))
      () () () () (9 / 10) 60 600 rfl rfl rfl (by norm_num) (by norm_num) (by norm_num)).2.2.1⟩

/-- C2: whatever the three input reads return (any status, any value left in
the slot), a cycle passes exactly one torque command to
`Rte_Write_PpMotorDriver_SetTorque` and it lies in [MIN_TORQUE, MAX_TORQUE] =
[0,100]. -/
theorem TorqueControl_Update_command_bounded {σ : Type} (rte : Rte_TorqueControl σ) (s : σ) :
    ∃ cmd : ℚ, writtenTorques (TorqueControl_Update rte s).1 = [cmd] ∧
      MIN_TORQUE ≤ cmd ∧ cmd ≤ MAX_TORQUE ∧ (0 : ℚ) ≤ cmd ∧ cmd ≤ 100 := by
  refine ⟨(TorqueControl_Update_run rte s).desired_torque, TorqueControl_Update_writes rte s, ?_⟩
  have h1 := TorqueControl_limit_ge (TorqueControl_desired
    (TorqueControl_Update_run rte s).throttle_input (TorqueControl_Update_run rte s).current_speed
    (TorqueControl_Update_run rte s).load_weight)
  have h2 := TorqueControl_limit_le (TorqueControl_desired
    (TorqueControl_Update_run rte s).throttle_input (TorqueControl_Update_run rte s).current_speed
    (TorqueControl_Update_run rte s).load_weight)
  exact ⟨h1, h2, h1, h2⟩

/-- C3: the three reference scenarios of the control law.  Throttle 0.5, speed
30, load 200: desired 50 (no de-rate, no bonus), final 50.  Throttle 0.9, speed
60, load 600: desired 90*0.8+10 = 82, final 82.  Throttle 1.0, speed 0, load 0:
desired 100, final 100.  The final value is the one written in a cycle whose
reads return these inputs. -/
theorem TorqueControl_reference_scenarios :
    (TorqueControl_desired 0.5 30 200 = 50 ∧ TorqueControl_desired 0.5 30 200 = 0.5 * 100 ∧
      TorqueControl_limit (TorqueControl_desired 0.5 30 200) = 50 ∧
      writtenTorques (TorqueControl_Update
        (Rte_fixed (E_OK, 0.5) (E_OK, 30) (E_OK, 200) (E_OK, 0) E_OK (fun _ => E_OK)) ()).1 = [50]) ∧
    (TorqueControl_desired 0.9 60 600 = 82 ∧ TorqueControl_desired 0.9 60 600 = 90 * 0.8 + 10 ∧
      TorqueControl_limit (TorqueControl_desired 0.9 60 600) = 82 ∧
      writtenTorques (TorqueControl_Update
        (Rte_fixed (E_OK, 0.9) (E_OK, 60) (E_OK, 600) (E_OK, 0) E_OK (fun _ => E_OK)) ()).1 = [82]) ∧
    (TorqueControl_desired 1.0 0 0 = 100 ∧
      TorqueControl_limit (TorqueControl_desired 1.0 0 0) = 100 ∧
      writtenTorques (TorqueControl_Update
        (Rte_fixed (E_OK, 1.0) (E_OK, 0) (E_OK, 0) (E_OK, 0) E_OK (fun _ => E_OK)) ()).1 = [100]) := by
  have a1 : TorqueControl_desired 0.5 30 200 = 50 := by norm_num [TorqueControl_desired]
  have a2 : TorqueControl_desired 0.9 60 600 = 82 := by norm_num [TorqueControl_desired]
  have a3 : TorqueControl_desired 1.0 0 0 = 100 := by norm_num [TorqueControl_desired]
  have l1 : TorqueControl_limit 50 = 50 := by norm_num [TorqueControl_limit]
  have l2 : TorqueControl_limit 82 = 82 := by norm_num [TorqueControl_limit]
  have l3 : TorqueControl_limit 100 = 100 := by norm_num [TorqueControl_limit]
  refine ⟨⟨a1, by rw [a1]; norm_num, by rw [a1, l1], ?_⟩,
    ⟨a2, by rw [a2]; norm_num, by rw [a2, l2], ?_⟩, ⟨a3, by rw [a3, l3], ?_⟩⟩
  · rw [TorqueControl_Update_writes]
    simp only [TorqueControl_Update_run, Rte_fixed, Option.map_some', Option.getD_some, a1, l1]
  · rw [TorqueControl_Update_writes]
    simp only [TorqueControl_Update_run, Rte_fixed, Option.map_some', Option.getD_some, a2, l2]
  · rw [TorqueControl_Update_writes]
    simp only [TorqueControl_Update_run, Rte_fixed, Option.map_some', Option.getD_some, a3, l3]

/-- C4: the thresholds of the control law are strict.  For every throttle, a
speed of exactly 50 applies no de-rate and a load of exactly 500 adds no bonus;
every speed strictly above 50 (such as 50.0001) multiplies the desired torque
by 0.8 and every load strictly above 500 (such as 500.0001) adds 10. -/
theorem TorqueControl_desired_thresholds_strict (throttle speed load : ℚ)
    (hspeed : 50 < speed) (hload : 500 < load) :
    TorqueControl_desired throttle 50 500 = throttle * 100 ∧
      TorqueControl_desired throttle 50 load = throttle * 100 + 10 ∧
      TorqueControl_desired throttle speed 500 = throttle * 100 * 0.8 ∧
      TorqueControl_desired throttle speed load = throttle * 100 * 0.8 + 10 ∧
      TorqueControl_desired throttle 50.0001 500 = throttle * 100 * 0.8 ∧
      TorqueControl_desired throttle 50 500.0001 = throttle * 100 + 10 := by
  have h50 : ¬ ((50 : ℚ) > 50) := lt_irrefl _
  have h500 : ¬ ((500 : ℚ) > 500) := lt_irrefl _
  have hs : speed > 50 := hspeed
  have hl : load > 500 := hload
  have hs' : (50.0001 : ℚ) > 50 := by norm_num
  have hl' : (500.0001 : ℚ) > 500 := by norm_num
  refine ⟨?_, ?_, ?_, ?_, ?_, ?_⟩
  · simp only [TorqueControl_desired, if_neg h50, if_neg h500]
  · simp only [TorqueControl_desired, if_neg h50, if_pos hl]
  · simp only [TorqueControl_desired, if_pos hs, if_neg h500]; norm_num
  · simp only [TorqueControl_desired, if_pos hs, if_pos hl]; norm_num
  · simp only [TorqueControl_desired, if_pos hs', if_neg h500]; norm_num
  · simp only [TorqueControl_desired, if_neg h50, if_pos hl']

/-- Witness of C4: speed 51 and load 501 at throttle 0.5. -/
theorem TorqueControl_desired_thresholds_strict_witness :
    ((50 : ℚ) < 51 ∧ (500 : ℚ) < 501) ∧
      TorqueControl_desired (1 / 2) 50 500 = 1 / 2 * 100 ∧
      TorqueControl_desired (1 / 2) 51 501 = 1 / 2 * 100 * 0.8 + 10 :=
  ⟨by norm_num,
    (TorqueControl_desired_thresholds_strict (1 / 2) 51 501 (by norm_num) (by norm_num)).1,
    (TorqueControl_desired_thresholds_strict (1 / 2) 51 501 (by norm_num) (by norm_num)).2.2.2.1⟩

/-- C5: `IoHwAb_MotorDriver_SetTorque` returns E_NOT_OK for every value below 0
and every value above the configured Motor_MaxTorque, in particular for -0.001
and for the configured maximum + 0.001; the state is then unchanged, so no duty
cycle is forwarded to the PWM output. -/
theorem IoHwAb_MotorDriver_SetTorque_out_of_range (s : Bsw) (v : ℚ)
    (h : v < 0 ∨ v > (s.MotorDriver_CurrentConfig.Motor_MaxTorque : ℚ)) :
    IoHwAb_MotorDriver_SetTorque v s = (E_NOT_OK, s) ∧
      pwmOutputs (IoHwAb_MotorDriver_SetTorque v s).2.mcal = pwmOutputs s.mcal ∧
      IoHwAb_MotorDriver_SetTorque (-0.001) s = (E_NOT_OK, s) ∧
      IoHwAb_MotorDriver_SetTorque ((s.MotorDriver_CurrentConfig.Motor_MaxTorque : ℚ) + 0.001) s =
        (E_NOT_OK, s) := by
  refine ⟨IoHwAb_MotorDriver_SetTorque_of_rejected v s h, ?_, ?_, ?_⟩
  · rw [IoHwAb_MotorDriver_SetTorque_of_rejected v s h]
  · exact IoHwAb_MotorDriver_SetTorque_of_rejected _ s (Or.inl (by norm_num))
  · exact IoHwAb_MotorDriver_SetTorque_of_rejected _ s (Or.inr (by norm_num))

/-- Witness of C5: 300.001 Nm on the driver configured by the facade (maximum
300 Nm). -/
theorem IoHwAb_MotorDriver_SetTorque_out_of_range_witness :
    IoHwAb_MotorDriver_SetTorque 300.001 (Rte_Call_PpMotorDriver_Init Bsw.startup).2 =
      (E_NOT_OK, (Rte_Call_PpMotorDriver_Init Bsw.startup).2) :=
  (IoHwAb_MotorDriver_SetTorque_out_of_range (Rte_Call_PpMotorDriver_Init Bsw.startup).2 300.001
    (Or.inr (by rw [Rte_Call_PpMotorDriver_Init_startup]; norm_num))).1

/-- C6, as the spec states it, fails: on the driver configured by the facade
(maximum 300 Nm) the value 2 Nm is accepted and the duty cycle forwarded is 0,
while `round(2 / 300 * 100)` is 1. -/
theorem IoHwAb_MotorDriver_SetTorque_not_rounded :
    IoHwAb_MotorDriver_SetTorque 2 (Rte_Call_PpMotorDriver_Init Bsw.startup).2 =
        (E_OK, Pwm_SetDutyCycle 1 (some 0) (Rte_Call_PpMotorDriver_Init Bsw.startup).2) ∧
      spec_dutyCycle 2 300 = 1 := by
  constructor
  · rw [IoHwAb_MotorDriver_SetTorque_of_accepted 2 _ (by norm_num)
      (by rw [Rte_Call_PpMotorDriver_Init_startup]; norm_num),
      Rte_Call_PpMotorDriver_Init_startup]
    rw [(MotorDriver_dutyCycle_of_accepted 2 300 (by norm_num) (by norm_num) (by norm_num)).1,
      MotorDriver_dutyFloat_2_300]
    have : ⌊(11184811 : ℚ) * (2 : ℚ) ^ (-24 : ℤ)⌋₊ = 0 := by
      rw [Nat.floor_eq_zero]; norm_num
    rw [this]
  · unfold spec_dutyCycle
    rw [round_eq, Int.floor_eq_iff]
    norm_num

/-- C6, amended: for every configured maximum torque above 0 and every value v
with 0 <= v <= configured maximum, `IoHwAb_MotorDriver_SetTorque` returns E_OK
and forwards to `Pwm_SetDutyCycle`, on the configured channel, the
single-precision value of (v / configured_max) * 100 with its fraction
discarded by the cast, not rounded to the nearest integer.  Neither
single-precision operation overflows, that value is within 2^-16 of the exact v
/ configured_max * 100, and the duty cycle is at most 100. -/
theorem IoHwAb_MotorDriver_SetTorque_duty_truncated (s : Bsw) (v : ℚ)
    (hmax : 0 < s.MotorDriver_CurrentConfig.Motor_MaxTorque)
    (h0 : 0 ≤ v) (h1 : v ≤ (s.MotorDriver_CurrentConfig.Motor_MaxTorque : ℚ)) :
    IoHwAb_MotorDriver_SetTorque v s =
        (E_OK, Pwm_SetDutyCycle s.MotorDriver_CurrentConfig.Motor_Channel
          (some ⌊MotorDriver_dutyFloat v s.MotorDriver_CurrentConfig.Motor_MaxTorque⌋₊) s) ∧
      pwmOutputs (IoHwAb_MotorDriver_SetTorque v s).2.mcal =
        pwmOutputs s.mcal ++ [(s.MotorDriver_CurrentConfig.Motor_Channel,
          some ⌊MotorDriver_dutyFloat v s.MotorDriver_CurrentConfig.Motor_MaxTorque⌋₊)] ∧
      (f32_div v (s.MotorDriver_CurrentConfig.Motor_MaxTorque : ℚ)).bind
          (fun ratio => f32_mul ratio 100) =
        some (MotorDriver_dutyFloat v s.MotorDriver_CurrentConfig.Motor_MaxTorque) ∧
      |MotorDriver_dutyFloat v s.MotorDriver_CurrentConfig.Motor_MaxTorque -
          v / (s.MotorDriver_CurrentConfig.Motor_MaxTorque : ℚ) * 100| ≤ 1 / 65536 ∧
      ⌊MotorDriver_dutyFloat v s.MotorDriver_CurrentConfig.Motor_MaxTorque⌋₊ ≤ 100 := by
  have h := IoHwAb_MotorDriver_SetTorque_of_accepted v s h0 h1
  obtain ⟨hd, hlo, hhi⟩ := MotorDriver_dutyCycle_of_accepted v _ hmax h0 h1
  rw [hd] at h
  refine ⟨h, ?_, ?_, MotorDriver_dutyFloat_err v _ hmax h0 h1, ?_⟩
  · rw [h]
    exact pwmOutputs_Pwm_SetDutyCycle s _ _
  · exact MotorDriver_dutyFloat_value v _ hmax h0 h1
  · have : ⌊MotorDriver_dutyFloat v s.MotorDriver_CurrentConfig.Motor_MaxTorque⌋₊ < 101 := by
      rw [Nat.floor_lt hlo]
      push_cast
      linarith
    omega

/-- Witness of C6 amended: 150 Nm on the driver configured by the facade. -/
theorem IoHwAb_MotorDriver_SetTorque_duty_truncated_witness :
    IoHwAb_MotorDriver_SetTorque 150 (Rte_Call_PpMotorDriver_Init Bsw.startup).2 =
      (E_OK, Pwm_SetDutyCycle
        (Rte_Call_PpMotorDriver_Init Bsw.startup).2.MotorDriver_CurrentConfig.Motor_Channel
        (some ⌊MotorDriver_dutyFloat 150
          (Rte_Call_PpMotorDriver_Init Bsw.startup).2.MotorDriver_CurrentConfig.Motor_MaxTorque⌋₊)
        (Rte_Call_PpMotorDriver_Init Bsw.startup).2) :=
  (IoHwAb_MotorDriver_SetTorque_duty_truncated (Rte_Call_PpMotorDriver_Init Bsw.startup).2 150
    (by rw [Rte_Call_PpMotorDriver_Init_startup]; norm_num) (by norm_num)
    (by rw [Rte_Call_PpMotorDriver_Init_startup]; norm_num)).1

/-- C8: for every raw sample (any 16-bit value) returned by a successful ADC
read, `IoHwAb_ThrottleSensor_Read` on a present slot returns E_OK and stores
raw/1023 limited to [0,1]: the stored position lies in [0,1], equals raw/1023
when raw <= 1023 and equals 1 when raw > 1023. -/
theorem IoHwAb_ThrottleSensor_Read_clamped (adc : Adc_Samples) (s : Bsw) (slot : ℚ) (raw : Nat)
    (h : adc s.adcReads s.ThrottleSensor_CurrentConfig.ThrottleSensor_Channel = some raw)
    (h16 : raw < 65536) :
    ∃ pos : ℚ,
      IoHwAb_ThrottleSensor_Read adc (some slot) s =
        (E_OK, some pos,
          s.record (McalCall.Adc_ReadChannel s.ThrottleSensor_CurrentConfig.ThrottleSensor_Channel)) ∧
      0 ≤ pos ∧ pos ≤ 1 ∧
      (raw ≤ 1023 → pos = (raw : ℚ) / 1023) ∧
      (raw > 1023 → pos = 1) := by
  refine ⟨ThrottleSensor_convert raw, ?_, ?_, ?_, ?_, ?_⟩
  · simp [IoHwAb_ThrottleSensor_Read, Adc_ReadChannel, h, Nat.mod_eq_of_lt h16, Bsw.record]
  · rw [ThrottleSensor_convert_eq]
    split_ifs
    · norm_num
    · positivity
  · rw [ThrottleSensor_convert_eq]
    split_ifs with hgt
    · exact le_refl _
    · exact not_lt.mp hgt
  · intro hle
    rw [ThrottleSensor_convert_eq, if_neg]
    have : (raw : ℚ) ≤ 1023 := by exact_mod_cast hle
    rw [gt_iff_lt, not_lt, div_le_one (by norm_num)]
    exact this
  · intro hgt
    rw [ThrottleSensor_convert_eq, if_pos]
    have : (1023 : ℚ) < (raw : ℚ) := by exact_mod_cast hgt
    rw [gt_iff_lt, lt_div_iff₀ (by norm_num)]
    linarith

/-- Witness of C8: the raw sample 2000 on the throttle channel after init. -/
theorem IoHwAb_ThrottleSensor_Read_clamped_witness :
    ∃ pos : ℚ,
      IoHwAb_ThrottleSensor_Read (fun _ _ => some 2000) (some 0) Bsw.afterInit =
        (E_OK, some pos, Bsw.afterInit.record
          (McalCall.Adc_ReadChannel Bsw.afterInit.ThrottleSensor_CurrentConfig.ThrottleSensor_Channel)) ∧
      0 ≤ pos ∧ pos ≤ 1 ∧
      (2000 ≤ 1023 → pos = ((2000 : ℕ) : ℚ) / 1023) ∧
      (2000 > 1023 → pos = 1) :=
  IoHwAb_ThrottleSensor_Read_clamped (fun _ _ => some 2000) Bsw.afterInit 0 2000 rfl (by norm_num)

/-- C9: `TorqueControl_Init` calls the facade inits in the order throttle,
speed, load, torque sensor, motor driver and stops at the first one that does
not return E_OK: the inits called are those up to and including the first
failure, and the final ready report is made exactly when all five return
E_OK. -/
theorem TorqueControl_Init_halts_at_first_failure {σ : Type} (rte : Rte_TorqueControl σ) (s : σ) :
    let r1 := rte.Rte_Call_RpThrottleSensor_Init s
    let r2 := rte.Rte_Call_RpSpeedSensor_Init r1.2
    let r3 := rte.Rte_Call_RpLoadSensor_Init r2.2
    let r4 := rte.Rte_Call_RpTorqueSensor_Init r3.2
    let r5 := rte.Rte_Call_PpMotorDriver_Init r4.2
    let ev := (TorqueControl_Init rte s).1
    calledOps ev <+: initOrder ∧
      returnedStatuses ev <+: [r1.1, r2.1, r3.1, r4.1, r5.1] ∧
      (calledOps ev).length = (returnedStatuses ev).length ∧
      (r1.1 ≠ E_OK → (calledOps ev).length = 1) ∧
      (r1.1 = E_OK → r2.1 ≠ E_OK → (calledOps ev).length = 2) ∧
      (r1.1 = E_OK → r2.1 = E_OK → r3.1 ≠ E_OK → (calledOps ev).length = 3) ∧
      (r1.1 = E_OK → r2.1 = E_OK → r3.1 = E_OK → r4.1 ≠ E_OK → (calledOps ev).length = 4) ∧
      (r1.1 = E_OK → r2.1 = E_OK → r3.1 = E_OK → r4.1 = E_OK → (calledOps ev).length = 5) ∧
      (SwcEvent.printf Report.system_ready ∈ ev ↔
        r1.1 = E_OK ∧ r2.1 = E_OK ∧ r3.1 = E_OK ∧ r4.1 = E_OK ∧ r5.1 = E_OK) := by
  intro r1 r2 r3 r4 r5 ev
  simp only [ev, r5, r4, r3, r2, r1, TorqueControl_Init]
  by_cases h1 : (rte.Rte_Call_RpThrottleSensor_Init s).1 = E_OK
  · by_cases h2 : (rte.Rte_Call_RpSpeedSensor_Init (rte.Rte_Call_RpThrottleSensor_Init s).2).1 = E_OK
    · by_cases h3 : (rte.Rte_Call_RpLoadSensor_Init (rte.Rte_Call_RpSpeedSensor_Init
          (rte.Rte_Call_RpThrottleSensor_Init s).2).2).1 = E_OK
      · by_cases h4 : (rte.Rte_Call_RpTorqueSensor_Init (rte.Rte_Call_RpLoadSensor_Init
            (rte.Rte_Call_RpSpeedSensor_Init (rte.Rte_Call_RpThrottleSensor_Init s).2).2).2).1 = E_OK
        · by_cases h5 : (rte.Rte_Call_PpMotorDriver_Init (rte.Rte_Call_RpTorqueSensor_Init
              (rte.Rte_Call_RpLoadSensor_Init (rte.Rte_Call_RpSpeedSensor_Init
                (rte.Rte_Call_RpThrottleSensor_Init s).2).2).2).2).1 = E_OK <;>
            simp [h1, h2, h3, h4, h5, calledOps, returnedStatuses, initOrder, SwcEvent.op?,
              SwcEvent.status?, List.IsPrefix]
        · simp [h1, h2, h3, h4, calledOps, returnedStatuses, initOrder, SwcEvent.op?,
            SwcEvent.status?, List.IsPrefix]
      · simp [h1, h2, h3, calledOps, returnedStatuses, initOrder, SwcEvent.op?,
          SwcEvent.status?, List.IsPrefix]
    · simp [h1, h2, calledOps, returnedStatuses, initOrder, SwcEvent.op?,
        SwcEvent.status?, List.IsPrefix]
  · simp [h1, calledOps, returnedStatuses, initOrder, SwcEvent.op?,
      SwcEvent.status?, List.IsPrefix]

/-- C10, as the spec states it, fails: on a facade whose load sensor init
returns E_NOT_OK, `TorqueControl_Init` stops after the load sensor init and
makes no ready report, and the next `TorqueControl_Update` is not rejected: it
reads throttle, speed and load, writes the torque 50 to the motor and reads the
actual torque. -/
theorem TorqueControl_Update_runs_after_failed_init :
    calledOps (TorqueControl_Init (Rte_fixed (E_OK, 1 / 2) (E_OK, 30) (E_OK, 200) (E_OK, 40) E_OK
        (fun i => if i = 2 then E_NOT_OK else E_OK)) ()).1 =
        [RteOp.Call_RpThrottleSensor_Init, RteOp.Call_RpSpeedSensor_Init,
          RteOp.Call_RpLoadSensor_Init] ∧
      SwcEvent.printf Report.system_ready ∉
        (TorqueControl_Init (Rte_fixed (E_OK, 1 / 2) (E_OK, 30) (E_OK, 200) (E_OK, 40) E_OK
          (fun i => if i = 2 then E_NOT_OK else E_OK)) ()).1 ∧
      calledOps (TorqueControl_Update
        (Rte_fixed (E_OK, 1 / 2) (E_OK, 30) (E_OK, 200) (E_OK, 40) E_OK
          (fun i => if i = 2 then E_NOT_OK else E_OK))
        (TorqueControl_Init (Rte_fixed (E_OK, 1 / 2) (E_OK, 30) (E_OK, 200) (E_OK, 40) E_OK
          (fun i => if i = 2 then E_NOT_OK else E_OK)) ()).2).1 =
        [RteOp.Read_RpThrottleSensor_ThrottlePosition, RteOp.Read_RpSpeedSensor_Speed,
          RteOp.Read_RpLoadSensor_LoadWeight, RteOp.Write_PpMotorDriver_SetTorque 50,
          RteOp.Read_RpTorqueSensor_ActualTorque] := by
  refine ⟨?_, ?_, ?_⟩
  · simp [TorqueControl_Init, Rte_fixed, calledOps, SwcEvent.op?]
  · simp [TorqueControl_Init, Rte_fixed]
  · rw [TorqueControl_Update_calls]
    have d : TorqueControl_limit (TorqueControl_desired (1 / 2) 30 200) = 50 := by
      norm_num [TorqueControl_desired, TorqueControl_limit]
    simp only [TorqueControl_Update_run, Rte_fixed, Option.map_some', Option.getD_some, d]

/-- C10, amended: when an init call returns a failure, `TorqueControl_Init`
ends without its ready report; the component keeps no Ready / Uninitialized
state and `TorqueControl_Update` has no guard, so a subsequent update is not
rejected: it performs the three sensor reads, one motor write and the read of
the actual torque, as after a successful init. -/
theorem TorqueControl_Update_unguarded {σ : Type} (rte : Rte_TorqueControl σ) (s : σ)
    (hfail : ∃ st ∈ returnedStatuses (TorqueControl_Init rte s).1, st ≠ E_OK) :
    SwcEvent.printf Report.system_ready ∉ (TorqueControl_Init rte s).1 ∧
      calledOps (TorqueControl_Update rte (TorqueControl_Init rte s).2).1 =
        [RteOp.Read_RpThrottleSensor_ThrottlePosition, RteOp.Read_RpSpeedSensor_Speed,
          RteOp.Read_RpLoadSensor_LoadWeight,
          RteOp.Write_PpMotorDriver_SetTorque
            (TorqueControl_Update_run rte (TorqueControl_Init rte s).2).desired_torque,
          RteOp.Read_RpTorqueSensor_ActualTorque] := by
  refine ⟨?_, TorqueControl_Update_calls rte _⟩
  intro hready
  obtain ⟨st, hst, hne⟩ := hfail
  exact hne (TorqueControl_Init_ready_only_if rte s hready st hst)

/-- Witness of C10 amended: a facade whose torque sensor init fails. -/
theorem TorqueControl_Update_unguarded_witness :
    SwcEvent.printf Report.system_ready ∉
      (TorqueControl_Init (Rte_fixed (E_OK, 1) (E_OK, 0) (E_OK, 0) (E_OK, 0) E_OK
        (fun i => if i = 3 then E_NOT_OK else E_OK)) ()).1 :=
  (TorqueControl_Update_unguarded (Rte_fixed (E_OK, 1) (E_OK, 0) (E_OK, 0) (E_OK, 0) E_OK
      (fun i => if i = 3 then E_NOT_OK else E_OK)) ()
    ⟨E_NOT_OK, by simp [TorqueControl_Init, Rte_fixed, returnedStatuses, SwcEvent.status?],
      by decide⟩).1

/-- C11: in `TorqueControl_Update` on the facade of the repository, a failed
read of throttle, speed or load does not abort the cycle: the failed input has
the value 0 of the fresh local, whatever the state left by earlier cycles, and
the torque command is still computed from the three inputs and written to the
motor driver; when the throttle read fails the command is 10 if load > 500 and
0 otherwise. -/
theorem TorqueControl_Update_failed_read_uses_zero (adc : Adc_Samples) (s : Bsw) :
    let r1 := Rte_Read_RpThrottleSensor_ThrottlePosition adc (some 0) s
    let r2 := Rte_Read_RpSpeedSensor_Speed adc (some 0) r1.2.2
    let r3 := Rte_Read_RpLoadSensor_LoadWeight adc (some 0) r2.2.2
    let run := TorqueControl_Update_run (Rte_IoHwAb adc) s
    (r1.1 ≠ E_OK → run.throttle_input = 0) ∧
      (r2.1 ≠ E_OK → run.current_speed = 0) ∧
      (r3.1 ≠ E_OK → run.load_weight = 0) ∧
      writtenTorques (TorqueControl_Update (Rte_IoHwAb adc) s).1 =
        [TorqueControl_limit
          (TorqueControl_desired run.throttle_input run.current_speed run.load_weight)] ∧
      (r1.1 ≠ E_OK → writtenTorques (TorqueControl_Update (Rte_IoHwAb adc) s).1 =
        [if run.load_weight > 500 then 10 else 0]) := by
  intro r1 r2 r3 run
  have hT : r1.1 ≠ E_OK → run.throttle_input = 0 := by
    intro h
    have := Rte_Read_RpThrottleSensor_ThrottlePosition_failed adc s 0 h
    simp only [run, TorqueControl_Update_run, Rte_IoHwAb]
    rw [this]
    rfl
  have hS : r2.1 ≠ E_OK → run.current_speed = 0 := by
    intro h
    have := Rte_Read_RpSpeedSensor_Speed_failed adc r1.2.2 0 h
    simp only [run, TorqueControl_Update_run, Rte_IoHwAb]
    rw [this]
    rfl
  have hL : r3.1 ≠ E_OK → run.load_weight = 0 := by
    intro h
    have := Rte_Read_RpLoadSensor_LoadWeight_failed adc r2.2.2 0 h
    simp only [run, TorqueControl_Update_run, Rte_IoHwAb]
    rw [this]
    rfl
  have hW := TorqueControl_Update_writes (Rte_IoHwAb adc) s
  rw [TorqueControl_Update_run_desired] at hW
  refine ⟨hT, hS, hL, hW, ?_⟩
  intro h
  rw [hW]
  have h0 : (TorqueControl_Update_run (Rte_IoHwAb adc) s).throttle_input = 0 := hT h
  rw [h0, TorqueControl_limit_desired_zero_throttle]

/-- C12: for every facade, whatever its five operations return, one
`TorqueControl_Update` cycle makes exactly the calls read throttle, read speed,
read load, write motor torque (once), read actual torque, each once and in this
order; the statuses of the write and of the read-back neither stop the cycle
nor cause a second call. -/
theorem TorqueControl_Update_call_sequence {σ : Type} (rte : Rte_TorqueControl σ) (s : σ) :
    calledOps (TorqueControl_Update rte s).1 =
        [RteOp.Read_RpThrottleSensor_ThrottlePosition, RteOp.Read_RpSpeedSensor_Speed,
          RteOp.Read_RpLoadSensor_LoadWeight,
          RteOp.Write_PpMotorDriver_SetTorque (TorqueControl_Update_run rte s).desired_torque,
          RteOp.Read_RpTorqueSensor_ActualTorque] ∧
      (returnedStatuses (TorqueControl_Update rte s).1).length = 5 ∧
      (writtenTorques (TorqueControl_Update rte s).1).length = 1 ∧
      (TorqueControl_Update rte s).2 =
        (rte.Rte_Read_RpTorqueSensor_ActualTorque (some 0)
          (rte.Rte_Write_PpMotorDriver_SetTorque (TorqueControl_Update_run rte s).desired_torque
            (rte.Rte_Read_RpLoadSensor_LoadWeight (some 0)
              (rte.Rte_Read_RpSpeedSensor_Speed (some 0)
                (rte.Rte_Read_RpThrottleSensor_ThrottlePosition (some 0) s).2.2).2.2).2.2).2).2.2 := by
  refine ⟨TorqueControl_Update_calls rte s, ?_, ?_, rfl⟩
  · rw [TorqueControl_Update_statuses]; rfl
  · rw [TorqueControl_Update_writes]; rfl

/-- Witness of C11: after init, the first ADC sample (throttle) fails and the
next ones return 1023, so the load is 1000 kg: the command written is 10. -/
theorem TorqueControl_Update_failed_read_uses_zero_witness :
    writtenTorques (TorqueControl_Update
      (Rte_IoHwAb (fun n _ => if n = 0 then none else some 1023)) Bsw.afterInit).1 =
      [if (TorqueControl_Update_run
        (Rte_IoHwAb (fun n _ => if n = 0 then none else some 1023)) Bsw.afterInit).load_weight > 500
        then 10 else 0] :=
  (TorqueControl_Update_failed_read_uses_zero (fun n _ => if n = 0 then none else some 1023)
    Bsw.afterInit).2.2.2.2 (by decide)

/-- C13: for each of the five abstractions, `Init` called with an absent (NULL)
configuration returns E_NOT_OK and leaves the whole state as it was: the stored
configuration is unchanged and no ADC, DIO or PWM call is made. -/
theorem IoHwAb_Init_null_config (s : Bsw) :
    IoHwAb_ThrottleSensor_Init none s = (E_NOT_OK, s) ∧
      IoHwAb_SpeedSensor_Init none s = (E_NOT_OK, s) ∧
      IoHwAb_LoadSensor_Init none s = (E_NOT_OK, s) ∧
      IoHwAb_TorqueSensor_Init none s = (E_NOT_OK, s) ∧
      IoHwAb_MotorDriver_Init none s = (E_NOT_OK, s) :=
  ⟨rfl, rfl, rfl, rfl, rfl⟩

/-- C14: every read operation, at the facade (`Rte_Read_*`) and at the
abstraction (`IoHwAb_*_Read`), returns E_NOT_OK when the output slot is absent
(NULL) and leaves the state as it was: no ADC sample is taken. -/
theorem Read_null_slot (adc : Adc_Samples) (s : Bsw) :
    (Rte_Read_RpThrottleSensor_ThrottlePosition adc none s = (E_NOT_OK, none, s) ∧
      Rte_Read_RpSpeedSensor_Speed adc none s = (E_NOT_OK, none, s) ∧
      Rte_Read_RpLoadSensor_LoadWeight adc none s = (E_NOT_OK, none, s) ∧
      Rte_Read_RpTorqueSensor_ActualTorque adc none s = (E_NOT_OK, none, s)) ∧
    (IoHwAb_ThrottleSensor_Read adc none s = (E_NOT_OK, none, s) ∧
      IoHwAb_SpeedSensor_Read adc none s = (E_NOT_OK, none, s) ∧
      IoHwAb_LoadSensor_Read adc none s = (E_NOT_OK, none, s) ∧
      IoHwAb_TorqueSensor_Read adc none s = (E_NOT_OK, none, s)) :=
  ⟨⟨rfl, rfl, rfl, rfl⟩, ⟨rfl, rfl, rfl, rfl⟩⟩

/-- C15: for each sensor abstraction, when the underlying ADC read fails, `Read`
on a present slot returns E_NOT_OK and leaves the content of the slot as it was,
and the corresponding facade read returns the same result. -/
theorem Read_adc_failure (adc : Adc_Samples) (s : Bsw) (v : ℚ)
    (hT : adc s.adcReads s.ThrottleSensor_CurrentConfig.ThrottleSensor_Channel = none)
    (hS : adc s.adcReads s.SpeedSensor_CurrentConfig.SpeedSensor_Channel = none)
    (hL : adc s.adcReads s.LoadSensor_CurrentConfig.LoadSensor_Channel = none)
    (hA : adc s.adcReads s.TorqueSensor_CurrentConfig.TorqueSensor_Channel = none) :
    (IoHwAb_ThrottleSensor_Read adc (some v) s =
        (E_NOT_OK, some v,
          s.record (McalCall.Adc_ReadChannel s.ThrottleSensor_CurrentConfig.ThrottleSensor_Channel)) ∧
      Rte_Read_RpThrottleSensor_ThrottlePosition adc (some v) s =
        IoHwAb_ThrottleSensor_Read adc (some v) s) ∧
    (IoHwAb_SpeedSensor_Read adc (some v) s =
        (E_NOT_OK, some v,
          s.record (McalCall.Adc_ReadChannel s.SpeedSensor_CurrentConfig.SpeedSensor_Channel)) ∧
      Rte_Read_RpSpeedSensor_Speed adc (some v) s = IoHwAb_SpeedSensor_Read adc (some v) s) ∧
    (IoHwAb_LoadSensor_Read adc (some v) s =
        (E_NOT_OK, some v,
          s.record (McalCall.Adc_ReadChannel s.LoadSensor_CurrentConfig.LoadSensor_Channel)) ∧
      Rte_Read_RpLoadSensor_LoadWeight adc (some v) s = IoHwAb_LoadSensor_Read adc (some v) s) ∧
    (IoHwAb_TorqueSensor_Read adc (some v) s =
        (E_NOT_OK, some v,
          s.record (McalCall.Adc_ReadChannel s.TorqueSensor_CurrentConfig.TorqueSensor_Channel)) ∧
      Rte_Read_RpTorqueSensor_ActualTorque adc (some v) s =
        IoHwAb_TorqueSensor_Read adc (some v) s) :=
  ⟨⟨IoHwAb_ThrottleSensor_Read_adc_failed adc s v hT, rfl⟩,
    ⟨IoHwAb_SpeedSensor_Read_adc_failed adc s v hS, rfl⟩,
    ⟨IoHwAb_LoadSensor_Read_adc_failed adc s v hL, rfl⟩,
    ⟨IoHwAb_TorqueSensor_Read_adc_failed adc s v hA, rfl⟩⟩

/-- Witness of C15: after init, with an ADC whose every conversion fails, a
speed read into a slot that holds 7 fails and the slot still holds 7. -/
theorem Read_adc_failure_witness :
    IoHwAb_SpeedSensor_Read (fun _ _ => none) (some 7) Bsw.afterInit =
      (E_NOT_OK, some 7, Bsw.afterInit.record
        (McalCall.Adc_ReadChannel Bsw.afterInit.SpeedSensor_CurrentConfig.SpeedSensor_Channel)) :=
  (Read_adc_failure (fun _ _ => none) Bsw.afterInit 7 rfl rfl rfl rfl).2.1.1

/-- C16: the facade is a pass-through without state of its own: for every state
of the abstractions and every output slot, each `Rte_Read_*` returns the same
status, slot content and state as the corresponding `IoHwAb_*_Read`, and for
every value `Rte_Write_PpMotorDriver_SetTorque` returns the same status and
state, hence the same PWM output, as `IoHwAb_MotorDriver_SetTorque`. -/
theorem Rte_is_pass_through (adc : Adc_Samples) (slot : Option ℚ) (v : ℚ) (s : Bsw) :
    Rte_Read_RpThrottleSensor_ThrottlePosition adc slot s = IoHwAb_ThrottleSensor_Read adc slot s ∧
      Rte_Read_RpSpeedSensor_Speed adc slot s = IoHwAb_SpeedSensor_Read adc slot s ∧
      Rte_Read_RpLoadSensor_LoadWeight adc slot s = IoHwAb_LoadSensor_Read adc slot s ∧
      Rte_Read_RpTorqueSensor_ActualTorque adc slot s = IoHwAb_TorqueSensor_Read adc slot s ∧
      Rte_Write_PpMotorDriver_SetTorque v s = IoHwAb_MotorDriver_SetTorque v s ∧
      pwmOutputs (Rte_Write_PpMotorDriver_SetTorque v s).2.mcal =
        pwmOutputs (IoHwAb_MotorDriver_SetTorque v s).2.mcal := by
  cases slot <;> exact ⟨rfl, rfl, rfl, rfl, rfl, rfl⟩

/-- C17: each facade init returns the result of the corresponding abstraction
`Init` on the reference configuration, and after the five facade inits, from
any state, the stored configurations are the reference values: throttle channel
0; speed channel 1, max 200; load channel 2, max 1000; torque sensor channel 3,
max 500; motor driver channel 1, max torque 300. -/
theorem Rte_Call_Init_reference_configs (adc : Adc_Samples) (s : Bsw) :
    (Rte_Call_RpThrottleSensor_Init s = IoHwAb_ThrottleSensor_Init (some ⟨0⟩) s ∧
      Rte_Call_RpSpeedSensor_Init s = IoHwAb_SpeedSensor_Init (some ⟨1, 200⟩) s ∧
      Rte_Call_RpLoadSensor_Init s = IoHwAb_LoadSensor_Init (some ⟨2, 1000⟩) s ∧
      Rte_Call_RpTorqueSensor_Init s = IoHwAb_TorqueSensor_Init (some ⟨3, 500⟩) s ∧
      Rte_Call_PpMotorDriver_Init s = IoHwAb_MotorDriver_Init (some ⟨1, 300⟩) s) ∧
    ((Rte_Call_RpThrottleSensor_Init s).2.ThrottleSensor_CurrentConfig = ⟨0⟩ ∧
      (Rte_Call_RpSpeedSensor_Init s).2.SpeedSensor_CurrentConfig = ⟨1, 200⟩ ∧
      (Rte_Call_RpLoadSensor_Init s).2.LoadSensor_CurrentConfig = ⟨2, 1000⟩ ∧
      (Rte_Call_RpTorqueSensor_Init s).2.TorqueSensor_CurrentConfig = ⟨3, 500⟩ ∧
      (Rte_Call_PpMotorDriver_Init s).2.MotorDriver_CurrentConfig = ⟨1, 300⟩) ∧
    ((TorqueControl_Init (Rte_IoHwAb adc) s).2.ThrottleSensor_CurrentConfig = ⟨0⟩ ∧
      (TorqueControl_Init (Rte_IoHwAb adc) s).2.SpeedSensor_CurrentConfig = ⟨1, 200⟩ ∧
      (TorqueControl_Init (Rte_IoHwAb adc) s).2.LoadSensor_CurrentConfig = ⟨2, 1000⟩ ∧
      (TorqueControl_Init (Rte_IoHwAb adc) s).2.TorqueSensor_CurrentConfig = ⟨3, 500⟩ ∧
      (TorqueControl_Init (Rte_IoHwAb adc) s).2.MotorDriver_CurrentConfig = ⟨1, 300⟩ ∧
      returnedStatuses (TorqueControl_Init (Rte_IoHwAb adc) s).1 = [E_OK, E_OK, E_OK, E_OK, E_OK]) :=
  ⟨⟨rfl, rfl, rfl, rfl, rfl⟩, ⟨rfl, rfl, rfl, rfl, rfl⟩, ⟨rfl, rfl, rfl, rfl, rfl, rfl⟩⟩

/-- C18: the stored configuration of each abstraction is changed only by its
own `Init`.  After every sequence of Init / Read / SetTorque operations, from
every state, the stored channels and maximum values are those of the argument
of the most recent successful `Init` of each abstraction (the starting values
where there was none).  An operation that is no `Init`, whether it returns E_OK
or not, leaves the five configurations as they were.  An `Init` is successful
exactly when its configuration is present, and then stores its argument. -/
theorem StoredConfigs_changed_only_by_own_Init (adc : Adc_Samples) (s : Bsw) (ops : List BswOp)
    (op : BswOp) (hop : op.isInit = false) :
    (Bsw.run adc s ops).configs = StoredConfigs.afterOps adc s s.configs ops ∧
      (Bsw.exec adc s op).2.configs = s.configs ∧
      (∀ a, (IoHwAb_ThrottleSensor_Init (some a) s).1 = E_OK ∧
        (IoHwAb_ThrottleSensor_Init (some a) s).2.configs = { s.configs with throttle := a }) ∧
      (∀ a, (IoHwAb_SpeedSensor_Init (some a) s).1 = E_OK ∧
        (IoHwAb_SpeedSensor_Init (some a) s).2.configs = { s.configs with speed := a }) ∧
      (∀ a, (IoHwAb_LoadSensor_Init (some a) s).1 = E_OK ∧
        (IoHwAb_LoadSensor_Init (some a) s).2.configs = { s.configs with load := a }) ∧
      (∀ a, (IoHwAb_TorqueSensor_Init (some a) s).1 = E_OK ∧
        (IoHwAb_TorqueSensor_Init (some a) s).2.configs = { s.configs with torque := a }) ∧
      (∀ a, (IoHwAb_MotorDriver_Init (some a) s).1 = E_OK ∧
        (IoHwAb_MotorDriver_Init (some a) s).2.configs = { s.configs with motor := a }) := by
  refine ⟨Bsw.run_configs adc ops s, ?_, fun a => ⟨rfl, rfl⟩, fun a => ⟨rfl, rfl⟩,
    fun a => ⟨rfl, rfl⟩, fun a => ⟨rfl, rfl⟩, fun a => ⟨rfl, rfl⟩⟩
  rw [Bsw.exec_configs, StoredConfigs.afterOp_not_init _ _ _ hop]

/-- Witness of C18: from start-up, a motor init with (1, 300), a rejected write
of 400 Nm, a speed read, a motor init with a NULL configuration, a motor init
with (2, 50) and an accepted write of 10 Nm leave the motor configuration
(2, 50) and the speed configuration at its starting value. -/
theorem StoredConfigs_changed_only_by_own_Init_witness :
    (Bsw.run (fun _ _ => some 100) Bsw.startup
        [BswOp.MotorDriver_Init (some ⟨1, 300⟩), BswOp.MotorDriver_SetTorque 400,
          BswOp.SpeedSensor_Read (some 0), BswOp.MotorDriver_Init none,
          BswOp.MotorDriver_Init (some ⟨2, 50⟩), BswOp.MotorDriver_SetTorque 10]).configs =
      { Bsw.startup.configs with motor := ⟨2, 50⟩ } := by
  rw [(StoredConfigs_changed_only_by_own_Init (fun _ _ => some 100) Bsw.startup
    [BswOp.MotorDriver_Init (some ⟨1, 300⟩), BswOp.MotorDriver_SetTorque 400,
      BswOp.SpeedSensor_Read (some 0), BswOp.MotorDriver_Init none,
      BswOp.MotorDriver_Init (some ⟨2, 50⟩), BswOp.MotorDriver_SetTorque 10]
    (BswOp.MotorDriver_SetTorque 400) rfl).1]
  simp [StoredConfigs.afterOps, StoredConfigs.afterOp, Bsw.exec, IoHwAb_MotorDriver_Init,
    IoHwAb_MotorDriver_SetTorque, IoHwAb_SpeedSensor_Read, Adc_ReadChannel, Pwm_Init,
    Pwm_SetDutyCycle, Bsw.record, Bsw.startup, Bsw.configs]

/-- C19: the torque limit of `TorqueControl_Update` leaves a value that is
already in [0,100] as it is, and it is idempotent: limiting a limited value
changes nothing. -/
theorem TorqueControl_limit_idempotent (x y : ℚ) (hx0 : 0 ≤ x) (hx1 : x ≤ 100) :
    TorqueControl_limit x = x ∧ TorqueControl_limit (TorqueControl_limit y) = TorqueControl_limit y := by
  have inRange : ∀ z : ℚ, 0 ≤ z → z ≤ 100 → TorqueControl_limit z = z := by
    intro z h0 h1
    unfold TorqueControl_limit
    rw [if_neg (not_lt.mpr h1), if_neg (not_lt.mpr h0)]
  exact ⟨inRange x hx0 hx1,
    inRange _ (TorqueControl_limit_ge y) (TorqueControl_limit_le y)⟩

/-- Witness of C19: 50 is left as it is; 150 is limited to 100 once and for
all. -/
theorem TorqueControl_limit_idempotent_witness :
    TorqueControl_limit 50 = 50 ∧
      TorqueControl_limit (TorqueControl_limit 150) = TorqueControl_limit 150 :=
  TorqueControl_limit_idempotent 50 150 (by norm_num) (by norm_num)

/-- C20: the torque limit of `TorqueControl_Update` is monotonic: a larger
desired torque before the limit never gives a smaller limited torque. -/
theorem TorqueControl_limit_monotone (x y : ℚ) (h : x ≤ y) :
    TorqueControl_limit x ≤ TorqueControl_limit y := by
  unfold TorqueControl_limit
  simp only [MAX_TORQUE, MIN_TORQUE]
  split_ifs <;> linarith

/-- Witness of C20: -5 and 150. -/
theorem TorqueControl_limit_monotone_witness :
    TorqueControl_limit (-5) ≤ TorqueControl_limit 150 :=
  TorqueControl_limit_monotone (-5) 150 (by norm_num)

/-- C22: the torque command of a cycle depends only on the throttle, speed and
load readings of that cycle.  Two runs of `TorqueControl_Update`, on any two
facades in any two states (whatever earlier cycles did, whatever the write and
the read-back of the actual torque return), whose three reads leave the same
values in the slots, write the same single torque command; the comparison with
the actual torque is followed by no further call. -/
theorem TorqueControl_Update_command_depends_on_inputs {σ τ : Type}
    (rte1 : Rte_TorqueControl σ) (s1 : σ) (rte2 : Rte_TorqueControl τ) (s2 : τ)
    (hT : (rte1.Rte_Read_RpThrottleSensor_ThrottlePosition (some 0) s1).2.1 =
      (rte2.Rte_Read_RpThrottleSensor_ThrottlePosition (some 0) s2).2.1)
    (hS : (rte1.Rte_Read_RpSpeedSensor_Speed (some 0)
        (rte1.Rte_Read_RpThrottleSensor_ThrottlePosition (some 0) s1).2.2).2.1 =
      (rte2.Rte_Read_RpSpeedSensor_Speed (some 0)
        (rte2.Rte_Read_RpThrottleSensor_ThrottlePosition (some 0) s2).2.2).2.1)
    (hL : (rte1.Rte_Read_RpLoadSensor_LoadWeight (some 0)
        (rte1.Rte_Read_RpSpeedSensor_Speed (some 0)
          (rte1.Rte_Read_RpThrottleSensor_ThrottlePosition (some 0) s1).2.2).2.2).2.1 =
      (rte2.Rte_Read_RpLoadSensor_LoadWeight (some 0)
        (rte2.Rte_Read_RpSpeedSensor_Speed (some 0)
          (rte2.Rte_Read_RpThrottleSensor_ThrottlePosition (some 0) s2).2.2).2.2).2.1) :
    writtenTorques (TorqueControl_Update rte1 s1).1 = writtenTorques (TorqueControl_Update rte2 s2).1 ∧
      (writtenTorques (TorqueControl_Update rte1 s1).1).length = 1 ∧
      (calledOps (TorqueControl_Update rte1 s1).1).getLast? =
        some RteOp.Read_RpTorqueSensor_ActualTorque := by
  have hd : (TorqueControl_Update_run rte1 s1).desired_torque =
      (TorqueControl_Update_run rte2 s2).desired_torque := by
    simp only [TorqueControl_Update_run, hT, hS, hL]
  refine ⟨?_, ?_, ?_⟩
  · rw [TorqueControl_Update_writes, TorqueControl_Update_writes, hd]
  · rw [TorqueControl_Update_writes]; rfl
  · rw [TorqueControl_Update_calls]; rfl

/-- Witness of C22: two facades with the readings 0.5, 30 and 200; on the
second the write fails and the read-back fails. -/
theorem TorqueControl_Update_command_depends_on_inputs_witness :
    writtenTorques (TorqueControl_Update
        (Rte_fixed (E_OK, 1 / 2) (E_OK, 30) (E_OK, 200) (E_OK, 0) E_OK (fun _ => E_OK)) ()).1 =
      writtenTorques (TorqueControl_Update
        (Rte_fixed (E_OK, 1 / 2) (E_OK, 30) (E_OK, 200) (E_NOT_OK, 99) E_NOT_OK
          (fun _ => E_NOT_OK)) ()).1 :=
  (TorqueControl_Update_command_depends_on_inputs
    (Rte_fixed (E_OK, 1 / 2) (E_OK, 30) (E_OK, 200) (E_OK, 0) E_OK (fun _ => E_OK)) ()
    (Rte_fixed (E_OK, 1 / 2) (E_OK, 30) (E_OK, 200) (E_NOT_OK, 99) E_NOT_OK (fun _ => E_NOT_OK)) ()
    rfl rfl rfl).1

/-- C27: for every throttle in [0,1], speed >= 0 and load >= 0, the torque
before the limit lies in [0,110] and the lower branch of the limit (desired <
MIN_TORQUE) is not taken; the upper branch changes the value exactly when load
> 500, speed <= 50 and throttle > 0.9. -/
theorem TorqueControl_desired_range (throttle speed load : ℚ)
    (ht0 : 0 ≤ throttle) (ht1 : throttle ≤ 1) (_hspeed : 0 ≤ speed) (_hload : 0 ≤ load) :
    0 ≤ TorqueControl_desired throttle speed load ∧
      TorqueControl_desired throttle speed load ≤ 110 ∧
      ¬ (TorqueControl_desired throttle speed load < MIN_TORQUE) ∧
      (TorqueControl_limit (TorqueControl_desired throttle speed load) ≠
          TorqueControl_desired throttle speed load ↔
        load > 500 ∧ speed ≤ 50 ∧ throttle > 0.9) ∧
      (TorqueControl_desired throttle speed load > MAX_TORQUE ↔
        load > 500 ∧ speed ≤ 50 ∧ throttle > 0.9) := by
  have h0 := TorqueControl_desired_nonneg throttle speed load ht0
  have h1 := TorqueControl_desired_le throttle speed load ht1
  have hup : TorqueControl_desired throttle speed load > MAX_TORQUE ↔
      load > 500 ∧ speed ≤ 50 ∧ throttle > 0.9 := by
    unfold TorqueControl_desired
    simp only [MAX_TORQUE]
    constructor
    · intro h
      by_cases hs : speed > 50 <;> by_cases hl : load > 500 <;>
        simp only [hs, hl, if_true, if_false] at h
      · exfalso; linarith
      · exfalso; linarith
      · exact ⟨hl, not_lt.mp hs, by norm_num; linarith⟩
      · exfalso; linarith
    · rintro ⟨hl, hs, ht⟩
      rw [if_neg (not_lt.mpr hs), if_pos hl]
      norm_num at ht
      linarith
  refine ⟨h0, h1, not_lt.mpr h0, ?_, hup⟩
  rw [← hup]
  unfold TorqueControl_limit
  constructor
  · intro h
    by_contra hgt
    rw [if_neg hgt, if_neg (not_lt.mpr h0)] at h
    exact h rfl
  · intro hgt
    rw [if_pos hgt]
    exact ne_of_lt hgt

/-- Witness of C27: throttle 0.95, speed 40, load 600 gives 105 before the
limit. -/
theorem TorqueControl_desired_range_witness :
    0 ≤ TorqueControl_desired (95 / 100) 40 600 ∧
      TorqueControl_desired (95 / 100) 40 600 ≤ 110 :=
  ⟨(TorqueControl_desired_range (95 / 100) 40 600 (by norm_num) (by norm_num) (by norm_num)
      (by norm_num)).1,
    (TorqueControl_desired_range (95 / 100) 40 600 (by norm_num) (by norm_num) (by norm_num)
      (by norm_num)).2.1⟩

/-- C29: for a throttle in [0,1], a speed >= 0 and a load >= 0 the final torque
command is 0 exactly when throttle = 0 and load <= 500; with throttle 0 and load
> 500 the command is 10, and so it is on the facade of the repository when the
throttle read fails and the load is > 500. -/
theorem TorqueControl_command_zero_iff (throttle speed load : ℚ) (adc : Adc_Samples) (s : Bsw)
    (ht0 : 0 ≤ throttle) (_ht1 : throttle ≤ 1) (_hspeed : 0 ≤ speed) (_hload : 0 ≤ load) :
    (TorqueControl_limit (TorqueControl_desired throttle speed load) = 0 ↔
        throttle = 0 ∧ load ≤ 500) ∧
      (load > 500 → TorqueControl_limit (TorqueControl_desired 0 speed load) = 10) ∧
      ((Rte_Read_RpThrottleSensor_ThrottlePosition adc (some 0) s).1 ≠ E_OK →
        (TorqueControl_Update_run (Rte_IoHwAb adc) s).load_weight > 500 →
        writtenTorques (TorqueControl_Update (Rte_IoHwAb adc) s).1 = [10]) := by
  refine ⟨?_, ?_, ?_⟩
  · have hd0 := TorqueControl_desired_nonneg throttle speed load ht0
    have hlim : TorqueControl_limit (TorqueControl_desired throttle speed load) = 0 ↔
        TorqueControl_desired throttle speed load = 0 := by
      unfold TorqueControl_limit
      simp only [MAX_TORQUE, MIN_TORQUE]
      split_ifs with h1 h2
      · constructor
        · intro h; norm_num at h
        · intro h; linarith
      · exfalso; linarith
      · exact Iff.rfl
    rw [hlim]
    unfold TorqueControl_desired
    simp only [MAX_TORQUE]
    constructor
    · intro h
      by_cases hs : speed > 50 <;> by_cases hl : load > 500 <;>
        simp only [hs, hl, if_true, if_false] at h
      · exfalso; linarith
      · exact ⟨by linarith, not_lt.mp hl⟩
      · exfalso; linarith
      · exact ⟨by linarith, not_lt.mp hl⟩
    · rintro ⟨ht, hl⟩
      rw [ht, if_neg (not_lt.mpr hl)]
      split_ifs <;> norm_num
  · intro hl
    rw [TorqueControl_limit_desired_zero_throttle, if_pos hl]
  · intro hfail hl
    rw [TorqueControl_Update_writes, TorqueControl_Update_run_desired,
      TorqueControl_Update_run_throttle_failed adc s hfail,
      TorqueControl_limit_desired_zero_throttle, if_pos hl]

/-- Witness of C29: throttle 0, speed 20, load 600 on the state after init. -/
theorem TorqueControl_command_zero_iff_witness :
    TorqueControl_limit (TorqueControl_desired 0 20 600) = 0 ↔ (0 : ℚ) = 0 ∧ (600 : ℚ) ≤ 500 :=
  (TorqueControl_command_zero_iff 0 20 600 (fun _ _ => none) Bsw.afterInit (le_refl _)
    (by norm_num) (by norm_num) (by norm_num)).1

/-- C30: for every fixed speed and load the final, limited torque command of
`TorqueControl_Update` does not decrease when the throttle increases. -/
theorem TorqueControl_command_monotone_in_throttle (t1 t2 speed load : ℚ) (h : t1 ≤ t2) :
    TorqueControl_limit (TorqueControl_desired t1 speed load) ≤
      TorqueControl_limit (TorqueControl_desired t2 speed load) :=
  TorqueControl_limit_mono _ _ (TorqueControl_desired_mono_throttle t1 t2 speed load h)

/-- Witness of C30: throttle 0.2 and 0.95 at speed 40 and load 600. -/
theorem TorqueControl_command_monotone_in_throttle_witness :
    TorqueControl_limit (TorqueControl_desired (2 / 10) 40 600) ≤
      TorqueControl_limit (TorqueControl_desired (95 / 100) 40 600) :=
  TorqueControl_command_monotone_in_throttle (2 / 10) (95 / 100) 40 600 (by norm_num)

/-- C23: with a motor maximum of 300, the value the facade configures, every
command `TorqueControl_Update` can produce (every limited torque) is accepted by
`IoHwAb_MotorDriver_SetTorque` and forwarded as a duty cycle of at most 33; in
a cycle on the facade of the repository the write returns E_OK and the one PWM
output of the cycle is floor(command / 3), at most 33. -/
theorem TorqueControl_Update_command_accepted_by_driver (adc : Adc_Samples) (s : Bsw)
    (h300 : s.MotorDriver_CurrentConfig.Motor_MaxTorque = 300) :
    (∀ d : ℚ, ∃ duty : ℕ,
      IoHwAb_MotorDriver_SetTorque (TorqueControl_limit d) s =
        (E_OK, Pwm_SetDutyCycle s.MotorDriver_CurrentConfig.Motor_Channel (some duty) s) ∧
      duty ≤ 33) ∧
    (returnedStatuses (TorqueControl_Update (Rte_IoHwAb adc) s).1)[3]? = some E_OK ∧
    pwmOutputs (TorqueControl_Update (Rte_IoHwAb adc) s).2.mcal =
      pwmOutputs s.mcal ++ [(s.MotorDriver_CurrentConfig.Motor_Channel,
        some ⌊(TorqueControl_Update_run (Rte_IoHwAb adc) s).desired_torque / 3⌋₊)] ∧
    ⌊(TorqueControl_Update_run (Rte_IoHwAb adc) s).desired_torque / 3⌋₊ ≤ 33 := by
  have hc0 : (0 : ℚ) ≤ (TorqueControl_Update_run (Rte_IoHwAb adc) s).desired_torque := by
    rw [TorqueControl_Update_run_desired]; exact TorqueControl_limit_ge _
  have hc1 : (TorqueControl_Update_run (Rte_IoHwAb adc) s).desired_torque ≤ 100 := by
    rw [TorqueControl_Update_run_desired]; exact TorqueControl_limit_le _
  obtain ⟨hw, h33⟩ := IoHwAb_MotorDriver_SetTorque_300
    (((s.record
      (McalCall.Adc_ReadChannel s.ThrottleSensor_CurrentConfig.ThrottleSensor_Channel)).record
      (McalCall.Adc_ReadChannel s.SpeedSensor_CurrentConfig.SpeedSensor_Channel)).record
      (McalCall.Adc_ReadChannel s.LoadSensor_CurrentConfig.LoadSensor_Channel))
    (TorqueControl_Update_run (Rte_IoHwAb adc) s).desired_torque h300 hc0 hc1
  rw [TorqueControl_Update_IoHwAb_duty] at hw h33
  refine ⟨fun d => ⟨_, IoHwAb_MotorDriver_SetTorque_300 s (TorqueControl_limit d) h300
    (TorqueControl_limit_ge d) (TorqueControl_limit_le d)⟩, ?_, ?_, h33⟩
  · rw [TorqueControl_Update_IoHwAb_write_status, hw]
  · rw [TorqueControl_Update_IoHwAb_final_state, hw, pwmOutputs_record_read,
      pwmOutputs_Pwm_SetDutyCycle, pwmOutputs_record_read, pwmOutputs_record_read,
      pwmOutputs_record_read]
    rfl

/-- Witness of C23: the state after init, where the motor maximum is 300. -/
theorem TorqueControl_Update_command_accepted_by_driver_witness :
    (returnedStatuses (TorqueControl_Update (Rte_IoHwAb (fun _ _ => some 1023)) Bsw.afterInit).1)[3]? =
      some E_OK :=
  (TorqueControl_Update_command_accepted_by_driver (fun _ _ => some 1023) Bsw.afterInit rfl).2.1

/-- C24: on a motor driver that was never initialised (Motor_MaxTorque = 0, the
zero of the static configuration) `IoHwAb_MotorDriver_SetTorque` rejects every
value other than 0; for the value 0 the range check passes and the duty cycle
is a division by zero, which has no value.  In any state the range check keeps
the divisor away from zero for every accepted value exactly when
Motor_MaxTorque > 0. -/
theorem IoHwAb_MotorDriver_SetTorque_uninitialised (s t : Bsw)
    (h0 : s.MotorDriver_CurrentConfig.Motor_MaxTorque = 0) :
    (∀ v : ℚ, v ≠ 0 → IoHwAb_MotorDriver_SetTorque v s = (E_NOT_OK, s)) ∧
      IoHwAb_MotorDriver_SetTorque 0 s =
        (E_OK, Pwm_SetDutyCycle s.MotorDriver_CurrentConfig.Motor_Channel none s) ∧
      float_div 0 (s.MotorDriver_CurrentConfig.Motor_MaxTorque : ℚ) = none ∧
      ((∀ v : ℚ, (IoHwAb_MotorDriver_SetTorque v t).1 = E_OK →
          (float_div v (t.MotorDriver_CurrentConfig.Motor_MaxTorque : ℚ)).isSome) ↔
        0 < t.MotorDriver_CurrentConfig.Motor_MaxTorque) := by
  refine ⟨?_, ?_, ?_, ?_⟩
  · intro v hv
    apply IoHwAb_MotorDriver_SetTorque_of_rejected
    rw [h0]
    push_cast
    rcases lt_or_gt_of_ne hv with h | h
    · exact Or.inl h
    · exact Or.inr h
  · rw [IoHwAb_MotorDriver_SetTorque_of_accepted 0 s (le_refl _) (by rw [h0]; norm_num), h0]
    simp [MotorDriver_dutyCycle, f32_div, float_div]
  · rw [h0]
    simp [float_div]
  · constructor
    · intro h
      by_contra hmax
      have hz : t.MotorDriver_CurrentConfig.Motor_MaxTorque = 0 := by omega
      have := h 0 ((IoHwAb_MotorDriver_SetTorque_status 0 t).mpr ⟨le_refl _, by rw [hz]; norm_num⟩)
      rw [hz] at this
      simp [float_div] at this
    · intro hmax v _
      have : (t.MotorDriver_CurrentConfig.Motor_MaxTorque : ℚ) ≠ 0 := by exact_mod_cast hmax.ne'
      simp [float_div, this]

/-- Witness of C24: the state at program start. -/
theorem IoHwAb_MotorDriver_SetTorque_uninitialised_witness :
    IoHwAb_MotorDriver_SetTorque 0 Bsw.startup =
      (E_OK, Pwm_SetDutyCycle Bsw.startup.MotorDriver_CurrentConfig.Motor_Channel none Bsw.startup) :=
  (IoHwAb_MotorDriver_SetTorque_uninitialised Bsw.startup Bsw.afterInit rfl).2.1

/-- C25: every facade init passes a present configuration and returns E_OK from
every state; so `TorqueControl_Init` on the facade of the repository always
calls all five inits, in order, makes its final ready report and makes none of
its five failure reports. -/
theorem TorqueControl_Init_always_ready (adc : Adc_Samples) (s : Bsw) :
    ((Rte_Call_RpThrottleSensor_Init s).1 = E_OK ∧ (Rte_Call_RpSpeedSensor_Init s).1 = E_OK ∧
      (Rte_Call_RpLoadSensor_Init s).1 = E_OK ∧ (Rte_Call_RpTorqueSensor_Init s).1 = E_OK ∧
      (Rte_Call_PpMotorDriver_Init s).1 = E_OK) ∧
    (TorqueControl_Init (Rte_IoHwAb adc) s).1 =
      [SwcEvent.printf Report.init_begin,
        SwcEvent.call RteOp.Call_RpThrottleSensor_Init E_OK,
        SwcEvent.printf Report.throttle_init_ok,
        SwcEvent.call RteOp.Call_RpSpeedSensor_Init E_OK,
        SwcEvent.printf Report.speed_init_ok,
        SwcEvent.call RteOp.Call_RpLoadSensor_Init E_OK,
        SwcEvent.printf Report.load_init_ok,
        SwcEvent.call RteOp.Call_RpTorqueSensor_Init E_OK,
        SwcEvent.printf Report.torque_init_ok,
        SwcEvent.call RteOp.Call_PpMotorDriver_Init E_OK,
        SwcEvent.printf Report.motor_init_ok,
        SwcEvent.printf Report.system_ready] ∧
    calledOps (TorqueControl_Init (Rte_IoHwAb adc) s).1 = initOrder ∧
    SwcEvent.printf Report.system_ready ∈ (TorqueControl_Init (Rte_IoHwAb adc) s).1 ∧
    SwcEvent.printf Report.throttle_init_error ∉ (TorqueControl_Init (Rte_IoHwAb adc) s).1 ∧
    SwcEvent.printf Report.speed_init_error ∉ (TorqueControl_Init (Rte_IoHwAb adc) s).1 ∧
    SwcEvent.printf Report.load_init_error ∉ (TorqueControl_Init (Rte_IoHwAb adc) s).1 ∧
    SwcEvent.printf Report.torque_init_error ∉ (TorqueControl_Init (Rte_IoHwAb adc) s).1 ∧
    SwcEvent.printf Report.motor_init_error ∉ (TorqueControl_Init (Rte_IoHwAb adc) s).1 := by
  have hev : (TorqueControl_Init (Rte_IoHwAb adc) s).1 =
      [SwcEvent.printf Report.init_begin,
        SwcEvent.call RteOp.Call_RpThrottleSensor_Init E_OK,
        SwcEvent.printf Report.throttle_init_ok,
        SwcEvent.call RteOp.Call_RpSpeedSensor_Init E_OK,
        SwcEvent.printf Report.speed_init_ok,
        SwcEvent.call RteOp.Call_RpLoadSensor_Init E_OK,
        SwcEvent.printf Report.load_init_ok,
        SwcEvent.call RteOp.Call_RpTorqueSensor_Init E_OK,
        SwcEvent.printf Report.torque_init_ok,
        SwcEvent.call RteOp.Call_PpMotorDriver_Init E_OK,
        SwcEvent.printf Report.motor_init_ok,
        SwcEvent.printf Report.system_ready] := rfl
  refine ⟨⟨rfl, rfl, rfl, rfl, rfl⟩, hev, ?_, ?_, ?_, ?_, ?_, ?_, ?_⟩
  · rw [hev]; rfl
  all_goals rw [hev]; simp

/-- C26: in a cycle on the facade of the repository, with the speed maximum 200
and the load maximum 1000 and 10-bit samples, the speed is above 50 exactly when
the speed sample is >= 256 and the load is above 500 exactly when the load
sample is >= 512; so the de-rate applies exactly from sample 256 and the bonus
exactly from sample 512. -/
theorem TorqueControl_Update_adc_thresholds (adc : Adc_Samples) (s : Bsw) (raw_speed raw_load : Nat)
    (hmaxS : s.SpeedSensor_CurrentConfig.SpeedSensor_MaxValue = 200)
    (hmaxL : s.LoadSensor_CurrentConfig.LoadSensor_MaxValue = 1000)
    (hS : adc (s.adcReads + 1) s.SpeedSensor_CurrentConfig.SpeedSensor_Channel = some raw_speed)
    (hL : adc (s.adcReads + 2) s.LoadSensor_CurrentConfig.LoadSensor_Channel = some raw_load)
    (hS10 : raw_speed ≤ 1023) (hL10 : raw_load ≤ 1023) :
    ((TorqueControl_Update_run (Rte_IoHwAb adc) s).current_speed > 50 ↔ 256 ≤ raw_speed) ∧
      ((TorqueControl_Update_run (Rte_IoHwAb adc) s).load_weight > 500 ↔ 512 ≤ raw_load) ∧
      writtenTorques (TorqueControl_Update (Rte_IoHwAb adc) s).1 =
        [TorqueControl_limit
          ((TorqueControl_Update_run (Rte_IoHwAb adc) s).throttle_input * 100 *
              (if 256 ≤ raw_speed then 0.8 else 1.0) +
            (if 512 ≤ raw_load then 10 else 0))] := by
  have eS := TorqueControl_Update_IoHwAb_speed adc s raw_speed hS (by omega)
  have eL := TorqueControl_Update_IoHwAb_load adc s raw_load hL (by omega)
  rw [hmaxS] at eS
  rw [hmaxL] at eL
  have tS : (TorqueControl_Update_run (Rte_IoHwAb adc) s).current_speed > 50 ↔ 256 ≤ raw_speed := by
    rw [eS]; exact speed_derate_threshold raw_speed
  have tL : (TorqueControl_Update_run (Rte_IoHwAb adc) s).load_weight > 500 ↔ 512 ≤ raw_load := by
    rw [eL]; exact load_bonus_threshold raw_load
  refine ⟨tS, tL, ?_⟩
  rw [TorqueControl_Update_writes, TorqueControl_Update_run_desired, TorqueControl_desired_eq]
  simp only [tS, tL]

/-- Witness of C26: after init, the second sample of the cycle (speed) is 256
and the third (load) is 511. -/
theorem TorqueControl_Update_adc_thresholds_witness :
    ((TorqueControl_Update_run (Rte_IoHwAb (fun n _ => some (if n = 1 then 256 else 511)))
        Bsw.afterInit).current_speed > 50 ↔ 256 ≤ 256) ∧
      ((TorqueControl_Update_run (Rte_IoHwAb (fun n _ => some (if n = 1 then 256 else 511)))
        Bsw.afterInit).load_weight > 500 ↔ 512 ≤ 511) :=
  ⟨(TorqueControl_Update_adc_thresholds (fun n _ => some (if n = 1 then 256 else 511))
      Bsw.afterInit 256 511 rfl rfl rfl rfl (by norm_num) (by norm_num)).1,
    (TorqueControl_Update_adc_thresholds (fun n _ => some (if n = 1 then 256 else 511))
      Bsw.afterInit 256 511 rfl rfl rfl rfl (by norm_num) (by norm_num)).2.1⟩

/-- C28, as stated, fails: on the state after init (maximum 300 Nm) the
single-precision value 159 Nm is accepted and the duty cycle forwarded is 52,
while floor(159 / 300 * 100) is 53: in single precision 159 / 300 is just below
0.53 and the product just below 53. -/
theorem IoHwAb_MotorDriver_SetTorque_duty_not_floor :
    f32_round 159 = some 159 ∧
      IoHwAb_MotorDriver_SetTorque 159 Bsw.afterInit =
        (E_OK, Pwm_SetDutyCycle 1 (some 52) Bsw.afterInit) ∧
      ⌊(159 : ℚ) / ((300 : ℕ) : ℚ) * 100⌋₊ = 53 := by
  refine ⟨?_, ?_, ?_⟩
  · exact_mod_cast f32_round_nat 159 (by norm_num)
  · rw [IoHwAb_MotorDriver_SetTorque_of_accepted 159 _ (by norm_num)
      (by rw [Bsw.afterInit_eq]; norm_num), Bsw.afterInit_eq]
    show (E_OK, Pwm_SetDutyCycle 1 (MotorDriver_dutyCycle 159 300) _) = _
    rw [(MotorDriver_dutyCycle_of_accepted 159 300 (by norm_num) (by norm_num) (by norm_num)).1,
      MotorDriver_dutyFloat_159_300]
    have : ⌊(13893631 : ℚ) * (2 : ℚ) ^ (-18 : ℤ)⌋₊ = 52 := by
      rw [Nat.floor_eq_iff (by positivity)]; norm_num
    rw [this]
  · rw [Nat.floor_eq_iff (by positivity)]
    norm_num

/-- C28, amended: for every configuration with Motor_MaxTorque > 0 (a 16-bit
value) and every accepted single-precision value v (0 <= v <= Motor_MaxTorque)
the duty cycle forwarded by `IoHwAb_MotorDriver_SetTorque` is the
single-precision value of (v / Motor_MaxTorque) * 100 truncated toward zero; it
differs from floor(v / Motor_MaxTorque * 100) by at most 1, is an integer in
[0,100], and is 100 only when v = Motor_MaxTorque. -/
theorem IoHwAb_MotorDriver_SetTorque_duty_range (s : Bsw) (v : ℚ)
    (hmax : 0 < s.MotorDriver_CurrentConfig.Motor_MaxTorque)
    (hmax16 : s.MotorDriver_CurrentConfig.Motor_MaxTorque < 65536)
    (h0 : 0 ≤ v) (h1 : v ≤ (s.MotorDriver_CurrentConfig.Motor_MaxTorque : ℚ))
    (hv : f32_round v = some v) :
    ∃ duty : Nat,
      IoHwAb_MotorDriver_SetTorque v s =
        (E_OK, Pwm_SetDutyCycle s.MotorDriver_CurrentConfig.Motor_Channel (some duty) s) ∧
      (duty : Int) =
        float_trunc (MotorDriver_dutyFloat v s.MotorDriver_CurrentConfig.Motor_MaxTorque) ∧
      |(duty : Int) - ⌊v / (s.MotorDriver_CurrentConfig.Motor_MaxTorque : ℚ) * 100⌋| ≤ 1 ∧
      duty ≤ 100 ∧
      (duty = 100 → v = (s.MotorDriver_CurrentConfig.Motor_MaxTorque : ℚ)) := by
  obtain ⟨hd, hlo, hhi⟩ := MotorDriver_dutyCycle_of_accepted v _ hmax h0 h1
  have hfl : ((⌊MotorDriver_dutyFloat v s.MotorDriver_CurrentConfig.Motor_MaxTorque⌋₊ : ℕ) : Int) =
      ⌊MotorDriver_dutyFloat v s.MotorDriver_CurrentConfig.Motor_MaxTorque⌋ :=
    Int.natCast_floor_eq_floor hlo
  refine ⟨⌊MotorDriver_dutyFloat v s.MotorDriver_CurrentConfig.Motor_MaxTorque⌋₊, ?_, ?_, ?_, ?_, ?_⟩
  · rw [IoHwAb_MotorDriver_SetTorque_of_accepted v s h0 h1, hd]
  · rw [float_trunc, if_pos hlo]
    exact hfl
  · rw [hfl]
    exact floor_sub_floor_le_one _ _ (MotorDriver_dutyFloat_err v _ hmax h0 h1)
  · have : ⌊MotorDriver_dutyFloat v s.MotorDriver_CurrentConfig.Motor_MaxTorque⌋₊ < 101 := by
      rw [Nat.floor_lt hlo]
      push_cast
      linarith
    omega
  · intro h100
    by_contra hne
    have hlt : v < (s.MotorDriver_CurrentConfig.Motor_MaxTorque : ℚ) := lt_of_le_of_ne h1 hne
    have hdf := MotorDriver_dutyFloat_lt_100 v _ hmax16 h0 hlt (f32_nearest_of_round v hv)
    have hle : ((100 : ℕ) : ℚ) ≤ MotorDriver_dutyFloat v s.MotorDriver_CurrentConfig.Motor_MaxTorque := by
      rw [← h100]
      exact Nat.floor_le hlo
    push_cast at hle
    linarith

/-- Witness of C28 amended: 299 Nm on the state after init (maximum 300 Nm). -/
theorem IoHwAb_MotorDriver_SetTorque_duty_range_witness :
    ∃ duty : Nat,
      IoHwAb_MotorDriver_SetTorque 299 Bsw.afterInit =
        (E_OK, Pwm_SetDutyCycle Bsw.afterInit.MotorDriver_CurrentConfig.Motor_Channel
          (some duty) Bsw.afterInit) ∧
      (duty : Int) =
        float_trunc (MotorDriver_dutyFloat 299 Bsw.afterInit.MotorDriver_CurrentConfig.Motor_MaxTorque) ∧
      |(duty : Int) - ⌊(299 : ℚ) / (Bsw.afterInit.MotorDriver_CurrentConfig.Motor_MaxTorque : ℚ) * 100⌋| ≤ 1 ∧
      duty ≤ 100 ∧
      (duty = 100 → (299 : ℚ) = (Bsw.afterInit.MotorDriver_CurrentConfig.Motor_MaxTorque : ℚ)) :=
  IoHwAb_MotorDriver_SetTorque_duty_range Bsw.afterInit 299
    (by rw [Bsw.afterInit_eq]; norm_num) (by rw [Bsw.afterInit_eq]; norm_num) (by norm_num)
    (by rw [Bsw.afterInit_eq]; norm_num) (by exact_mod_cast f32_round_nat 299 (by norm_num))

end ECU
